import Mathlib

/-
Verification of the JNI bridge `sqlitecloud/src/main/cpp/sqlitecloud.cpp`
of sqlitecloud/sqlitecloud-kotlin.

The bridge is a marshaling shim over the external native client library
(`sqcloud.h`).  We embed it shallowly:

* native pointers are `Ptr := Nat`, with `0` playing NULL;
* Java references (`jobject`, `jstring`, `ByteBuffer`, boxed `Integer`)
  are the inductive `JRef`; a `jstring` parameter of a bridge function is
  an `Option String` (`none` = the null reference);
* the external native library is an abstract oracle `NativeEnv` whose
  fields stand for the `SQCloud*` entry points the bridge invokes;
* each bridge function returns a `BridgeOut`: its return value, the exact
  list of native `SQCloud*` calls it performed (`NCall`, in order, with
  the marshaled arguments), and the list of heap allocations the bridge
  made with `new`/`calloc` and never freed (`Alloc`).  JNI-managed memory
  (pinned UTF chars, local references) is owned by the JVM and is not a
  bridge allocation.
-/

/-- A native pointer; `0` is the NULL pointer. -/
abbrev Ptr := Nat

/-- `sizeof(void *)` on the target, used by `NewDirectByteBuffer` in
`wrapPointer`. -/
def ptrSize : Nat := 8

/-- A Java reference as seen through JNI: the null reference, a direct
`ByteBuffer` (address and capacity in bytes), a `String`, or a boxed
`java.lang.Integer`. -/
inductive JRef where
  | jnull
  | directBuffer (addr : Ptr) (capacity : Nat)
  | jstr (s : String)
  | boxedInt (v : Int)
  deriving DecidableEq, Repr

/-- JNI `GetDirectBufferAddress`: the address of a direct buffer, NULL for
anything else. -/
def getDirectBufferAddress : JRef → Ptr
  | JRef.directBuffer a _ => a
  | _ => 0

/-- JNI `GetDirectBufferCapacity` (a `jlong`): the capacity in bytes of a
direct buffer, `-1` for anything else. -/
def getDirectBufferCapacity : JRef → Int
  | JRef.directBuffer _ c => (c : Int)
  | _ => -1

/-- A `static_cast<jstring>` view of a reference: the string it denotes, or
`none` for the null reference (and for references that are not strings,
where the C code would be undefined). -/
def asJString : JRef → Option String
  | JRef.jstr s => some s
  | _ => none

/-- JNI `NewStringUTF` applied to a non-null C string. -/
def newStringUTF (s : String) : JRef := JRef.jstr s

/-- The C++ conversion of a value to `uint32_t` (reduction modulo `2^32`,
mapping `-1` to `4294967295`). -/
def uint32OfInt (i : Int) : Nat := (i % (2 ^ 32 : Int)).toNat

/-- How many UTF-16 code units a Unicode character occupies. -/
def utf16Units (c : Char) : Nat := if c.toNat ≥ 0x10000 then 2 else 1

/-- JNI `GetStringLength`: the number of UTF-16 code units of the string
(not its UTF-8 byte count). -/
def jniStringLength (s : String) : Nat := (s.data.map utf16Units).sum

/-- `cString` from the source: NULL for a null `jstring`, otherwise the
UTF chars of the string (`GetStringUTFChars`). -/
def cString : Option String → Option String
  | none => none
  | some s => some s

/-- `wrapPointer` from the source: NULL becomes the null reference, any
other pointer is boxed in a direct `ByteBuffer` of capacity
`sizeof(void *)` via `NewDirectByteBuffer`. -/
def wrapPointer (p : Ptr) : JRef :=
  if p = 0 then JRef.jnull else JRef.directBuffer p ptrSize

/-- `unwrapPointer` from the source: `GetDirectBufferAddress` of the
wrapped pointer. -/
def unwrapPointer (wrappedPointer : JRef) : Ptr :=
  getDirectBufferAddress wrappedPointer

/-- `unwrapResult` from the source (the `static_cast` is the identity on
the address). -/
def unwrapResult (wrappedResult : JRef) : Ptr := unwrapPointer wrappedResult

/-- `unwrapBlob` from the source. -/
def unwrapBlob (wrappedBlob : JRef) : Ptr := unwrapPointer wrappedBlob

/-- `unwrapVM` from the source. -/
def unwrapVM (wrappedVM : JRef) : Ptr := unwrapPointer wrappedVM

/-- The `io.sqlitecloud.SQLiteCloudBridge` host object: the bridge reads
only its `connection` field, a `ByteBuffer` holding the connection
pointer. -/
structure SQLiteCloudBridge where
  connection : JRef
  deriving DecidableEq, Repr

/-- `getConnection` from the source: `GetObjectField` of the `connection`
field followed by `GetDirectBufferAddress`. -/
def getConnection (thiz : SQLiteCloudBridge) : Ptr :=
  getDirectBufferAddress thiz.connection

/-- The `PubSubData` record from the source: the stored `JNIEnv *` and the
registering host object. -/
structure PubSubData where
  env : Ptr
  thiz : SQLiteCloudBridge
  deriving DecidableEq, Repr

/-- The `SQCloudConfig` structure exactly as the initializer in
`doConnect` populates it (strings are `none` when the C field is the NULL
pointer). -/
structure SQCloudConfig where
  username : Option String
  password : Option String
  database : Option String
  timeout : Int
  family : Int
  compression : Bool
  sqlite_mode : Bool
  zero_text : Bool
  password_hashed : Bool
  nonlinearizable : Bool
  db_memory : Bool
  no_blob : Bool
  db_create : Bool
  max_data : Int
  max_rows : Int
  max_rowset : Int
  tls_root_certificate : Option String
  tls_certificate : Option String
  tls_certificate_key : Option String
  insecure : Bool
  deriving DecidableEq, Repr

/-- A `const char *` entry of the marshaled parameter array of
`executeArrayCommand`: NULL, a direct-buffer address, or a pointer to the
UTF-8 conversion of a Java string. -/
inductive CPtrVal where
  | nullp
  | bufAddr (a : Ptr)
  | utf8 (s : String)
  deriving DecidableEq, Repr

/-- Identity of a native callback function registered by the bridge. -/
inductive CBId where
  | pubSubTrampoline
  deriving DecidableEq, Repr

/-- An upcall from native code into the host object model. -/
inductive HostUpcall where
  | pubSubMethod (receiver : SQLiteCloudBridge) (arg : JRef)
  deriving DecidableEq, Repr

/-- A `jdouble` value carried opaquely by its 64-bit pattern: the bridge
never computes on double values, it only forwards them between the host
and the native library. -/
abbrev JDouble := Nat

/-- A native character/byte buffer returned by a `SQCloud*` accessor,
characterized by its address and the bytes stored there: the bridge uses
the content for `NewStringUTF` and the address (with a separate length)
for `NewDirectByteBuffer`. -/
structure CBuf where
  addr : Ptr
  content : String
  deriving DecidableEq, Repr

/-- Native calls of the result/rowset accessor, database transfer and
blob-handle families (one constructor per `SQCloud*` entry point, with
the marshaled arguments the bridge passed); kept in its own inductive so
that derived decidable equality stays shallow. -/
inductive NCallR where
  | resultInt32Q (res : Ptr)
  | resultInt64Q (res : Ptr)
  | resultDoubleQ (res : Ptr)
  | resultBufferQ (res : Ptr)
  | resultLenQ (res : Ptr)
  | arrayCountQ (res : Ptr)
  | arrayValueTypeQ (res : Ptr) (idx : Int)
  | arrayInt64ValueQ (res : Ptr) (idx : Int)
  | arrayDoubleValueQ (res : Ptr) (idx : Int)
  | arrayValueQ (res : Ptr) (idx : Int)
  | rowsetRowsQ (res : Ptr)
  | rowsetColsQ (res : Ptr)
  | rowsetColumnNameQ (res : Ptr) (col : Int)
  | rowsetValueTypeQ (res : Ptr) (row : Int) (col : Int)
  | rowsetInt64ValueQ (res : Ptr) (row : Int) (col : Int)
  | rowsetDoubleValueQ (res : Ptr) (row : Int) (col : Int)
  | rowsetValueQ (res : Ptr) (row : Int) (col : Int)
  | uploadDB (conn : Ptr) (name : Option String)
      (encryptionKey : Option String) (dataHandler : JRef) (fileSize : Int)
      (callbackObj : JRef)
  | downloadDB (conn : Ptr) (name : Option String) (dataHandler : JRef)
      (callbackObj : JRef)
  | blobOpenC (conn : Ptr) (schema table column : Option String)
      (rowId : Int) (readWrite : Nat)
  | blobReOpenC (handle : Ptr) (rowId : Int)
  | blobCloseC (handle : Ptr)
  | blobBytesQ (handle : Ptr)
  deriving DecidableEq, Repr

/-- Native calls of the prepared-statement (VM) family. -/
inductive NCallV where
  | vmBindIntC (vm : Ptr) (idx : Int) (value : Int)
  | vmBindInt64C (vm : Ptr) (idx : Int) (value : Int)
  | vmBindDoubleC (vm : Ptr) (idx : Int) (value : JDouble)
  | vmBindTextC (vm : Ptr) (idx : Int) (value : Option String)
      (byteSize : Int)
  | vmBindBlobC (vm : Ptr) (idx : Int) (value : Ptr) (blen : Int)
  | vmBindNullC (vm : Ptr) (idx : Int)
  | vmCompileC (conn : Ptr) (query : Option String) (len : Int)
  | vmColumnCountQ (vm : Ptr)
  | vmLastRowIDQ (vm : Ptr)
  | vmChangesQ (vm : Ptr)
  | vmTotalChangesQ (vm : Ptr)
  | vmIsReadOnlyQ (vm : Ptr)
  | vmIsExplainQ (vm : Ptr)
  | vmIsFinalizedQ (vm : Ptr)
  | vmBindParameterCountQ (vm : Ptr)
  | vmBindParameterIndexQ (vm : Ptr) (name : Option String)
  | vmBindParameterNameQ (vm : Ptr) (idx : Int)
  | vmColumnTypeQ (vm : Ptr) (idx : Int)
  | vmResultQ (vm : Ptr)
  | vmColumnInt64Q (vm : Ptr) (idx : Int)
  | vmColumnDoubleQ (vm : Ptr) (idx : Int)
  | vmColumnTextQ (vm : Ptr) (idx : Int)
  | vmColumnBlobQ (vm : Ptr) (idx : Int)
  deriving DecidableEq, Repr

/-- One invocation of a native `SQCloud*` entry point, with the marshaled
arguments the bridge passed. -/
inductive NCall where
  | connect (hostname : Option String) (port : Int) (config : SQCloudConfig)
  | disconnect (conn : Ptr)
  | isErrorQ (conn : Ptr)
  | isSQLiteErrorQ (conn : Ptr)
  | errorCodeQ (conn : Ptr)
  | errorMsgQ (conn : Ptr)
  | extendedErrorCodeQ (conn : Ptr)
  | errorOffsetQ (conn : Ptr)
  | vmErrorCodeQ (vm : Ptr)
  | vmErrorMsgQ (vm : Ptr)
  | uuidQ (conn : Ptr)
  | exec (conn : Ptr) (command : Option String)
  | execArray (conn : Ptr) (command : Option String) (values : List CPtrVal)
      (lengths : List Nat) (types : List Int) (count : Nat)
  | resultFree (res : Ptr)
  | resultTypeQ (res : Ptr)
  | setPubSubCB (conn : Ptr) (cb : CBId) (data : PubSubData)
  | setPubSubOnlyC (conn : Ptr)
  | blobRead (handle : Ptr) (buffer : Ptr) (blen : Int) (offset : Int)
  | blobWrite (handle : Ptr) (buffer : Ptr) (blen : Int) (offset : Int)
  | vmBindZeroBlobC (vm : Ptr) (idx : Int) (blen : Int)
  | vmStepC (vm : Ptr)
  | vmCloseC (vm : Ptr)
  | rq (c : NCallR)
  | vq (c : NCallV)
  deriving DecidableEq, Repr

/-- `SQCloudResultInt32`. -/
def NCall.resultInt32Q (res : Ptr) : NCall := NCall.rq (NCallR.resultInt32Q res)

/-- `SQCloudResultInt64`. -/
def NCall.resultInt64Q (res : Ptr) : NCall := NCall.rq (NCallR.resultInt64Q res)

/-- `SQCloudResultDouble`. -/
def NCall.resultDoubleQ (res : Ptr) : NCall := NCall.rq (NCallR.resultDoubleQ res)

/-- `SQCloudResultBuffer`. -/
def NCall.resultBufferQ (res : Ptr) : NCall := NCall.rq (NCallR.resultBufferQ res)

/-- `SQCloudResultLen`. -/
def NCall.resultLenQ (res : Ptr) : NCall := NCall.rq (NCallR.resultLenQ res)

/-- `SQCloudArrayCount`. -/
def NCall.arrayCountQ (res : Ptr) : NCall := NCall.rq (NCallR.arrayCountQ res)

/-- `SQCloudArrayValueType`. -/
def NCall.arrayValueTypeQ (res : Ptr) (idx : Int) : NCall :=
  NCall.rq (NCallR.arrayValueTypeQ res idx)

/-- `SQCloudArrayInt64Value`. -/
def NCall.arrayInt64ValueQ (res : Ptr) (idx : Int) : NCall :=
  NCall.rq (NCallR.arrayInt64ValueQ res idx)

/-- `SQCloudArrayDoubleValue`. -/
def NCall.arrayDoubleValueQ (res : Ptr) (idx : Int) : NCall :=
  NCall.rq (NCallR.arrayDoubleValueQ res idx)

/-- `SQCloudArrayValue`. -/
def NCall.arrayValueQ (res : Ptr) (idx : Int) : NCall :=
  NCall.rq (NCallR.arrayValueQ res idx)

/-- `SQCloudRowsetRows`. -/
def NCall.rowsetRowsQ (res : Ptr) : NCall := NCall.rq (NCallR.rowsetRowsQ res)

/-- `SQCloudRowsetCols`. -/
def NCall.rowsetColsQ (res : Ptr) : NCall := NCall.rq (NCallR.rowsetColsQ res)

/-- `SQCloudRowsetColumnName`. -/
def NCall.rowsetColumnNameQ (res : Ptr) (col : Int) : NCall :=
  NCall.rq (NCallR.rowsetColumnNameQ res col)

/-- `SQCloudRowsetValueType`. -/
def NCall.rowsetValueTypeQ (res : Ptr) (row col : Int) : NCall :=
  NCall.rq (NCallR.rowsetValueTypeQ res row col)

/-- `SQCloudRowsetInt64Value`. -/
def NCall.rowsetInt64ValueQ (res : Ptr) (row col : Int) : NCall :=
  NCall.rq (NCallR.rowsetInt64ValueQ res row col)

/-- `SQCloudRowsetDoubleValue`. -/
def NCall.rowsetDoubleValueQ (res : Ptr) (row col : Int) : NCall :=
  NCall.rq (NCallR.rowsetDoubleValueQ res row col)

/-- `SQCloudRowsetValue`. -/
def NCall.rowsetValueQ (res : Ptr) (row col : Int) : NCall :=
  NCall.rq (NCallR.rowsetValueQ res row col)

/-- `SQCloudUploadDatabase`. -/
def NCall.uploadDB (conn : Ptr) (name encryptionKey : Option String)
    (dataHandler : JRef) (fileSize : Int) (callbackObj : JRef) : NCall :=
  NCall.rq (NCallR.uploadDB conn name encryptionKey dataHandler fileSize
    callbackObj)

/-- `SQCloudDownloadDatabase`. -/
def NCall.downloadDB (conn : Ptr) (name : Option String)
    (dataHandler : JRef) (callbackObj : JRef) : NCall :=
  NCall.rq (NCallR.downloadDB conn name dataHandler callbackObj)

/-- `SQCloudBlobOpen`. -/
def NCall.blobOpenC (conn : Ptr) (schema table column : Option String)
    (rowId : Int) (readWrite : Nat) : NCall :=
  NCall.rq (NCallR.blobOpenC conn schema table column rowId readWrite)

/-- `SQCloudBlobReOpen`. -/
def NCall.blobReOpenC (handle : Ptr) (rowId : Int) : NCall :=
  NCall.rq (NCallR.blobReOpenC handle rowId)

/-- `SQCloudBlobClose`. -/
def NCall.blobCloseC (handle : Ptr) : NCall :=
  NCall.rq (NCallR.blobCloseC handle)

/-- `SQCloudBlobBytes`. -/
def NCall.blobBytesQ (handle : Ptr) : NCall :=
  NCall.rq (NCallR.blobBytesQ handle)

/-- `SQCloudVMBindInt`. -/
def NCall.vmBindIntC (vm : Ptr) (idx value : Int) : NCall :=
  NCall.vq (NCallV.vmBindIntC vm idx value)

/-- `SQCloudVMBindInt64`. -/
def NCall.vmBindInt64C (vm : Ptr) (idx value : Int) : NCall :=
  NCall.vq (NCallV.vmBindInt64C vm idx value)

/-- `SQCloudVMBindDouble`. -/
def NCall.vmBindDoubleC (vm : Ptr) (idx : Int) (value : JDouble) : NCall :=
  NCall.vq (NCallV.vmBindDoubleC vm idx value)

/-- `SQCloudVMBindText`. -/
def NCall.vmBindTextC (vm : Ptr) (idx : Int) (value : Option String)
    (byteSize : Int) : NCall :=
  NCall.vq (NCallV.vmBindTextC vm idx value byteSize)

/-- `SQCloudVMBindBlob`. -/
def NCall.vmBindBlobC (vm : Ptr) (idx : Int) (value : Ptr) (blen : Int) :
    NCall :=
  NCall.vq (NCallV.vmBindBlobC vm idx value blen)

/-- `SQCloudVMBindNull`. -/
def NCall.vmBindNullC (vm : Ptr) (idx : Int) : NCall :=
  NCall.vq (NCallV.vmBindNullC vm idx)

/-- `SQCloudVMCompile`. -/
def NCall.vmCompileC (conn : Ptr) (query : Option String) (len : Int) :
    NCall :=
  NCall.vq (NCallV.vmCompileC conn query len)

/-- `SQCloudVMColumnCount`. -/
def NCall.vmColumnCountQ (vm : Ptr) : NCall :=
  NCall.vq (NCallV.vmColumnCountQ vm)

/-- `SQCloudVMLastRowID`. -/
def NCall.vmLastRowIDQ (vm : Ptr) : NCall :=
  NCall.vq (NCallV.vmLastRowIDQ vm)

/-- `SQCloudVMChanges`. -/
def NCall.vmChangesQ (vm : Ptr) : NCall := NCall.vq (NCallV.vmChangesQ vm)

/-- `SQCloudVMTotalChanges`. -/
def NCall.vmTotalChangesQ (vm : Ptr) : NCall :=
  NCall.vq (NCallV.vmTotalChangesQ vm)

/-- `SQCloudVMIsReadOnly`. -/
def NCall.vmIsReadOnlyQ (vm : Ptr) : NCall :=
  NCall.vq (NCallV.vmIsReadOnlyQ vm)

/-- `SQCloudVMIsExplain`. -/
def NCall.vmIsExplainQ (vm : Ptr) : NCall :=
  NCall.vq (NCallV.vmIsExplainQ vm)

/-- `SQCloudVMIsFinalized`. -/
def NCall.vmIsFinalizedQ (vm : Ptr) : NCall :=
  NCall.vq (NCallV.vmIsFinalizedQ vm)

/-- `SQCloudVMBindParameterCount`. -/
def NCall.vmBindParameterCountQ (vm : Ptr) : NCall :=
  NCall.vq (NCallV.vmBindParameterCountQ vm)

/-- `SQCloudVMBindParameterIndex`. -/
def NCall.vmBindParameterIndexQ (vm : Ptr) (name : Option String) : NCall :=
  NCall.vq (NCallV.vmBindParameterIndexQ vm name)

/-- `SQCloudVMBindParameterName`. -/
def NCall.vmBindParameterNameQ (vm : Ptr) (idx : Int) : NCall :=
  NCall.vq (NCallV.vmBindParameterNameQ vm idx)

/-- `SQCloudVMColumnType`. -/
def NCall.vmColumnTypeQ (vm : Ptr) (idx : Int) : NCall :=
  NCall.vq (NCallV.vmColumnTypeQ vm idx)

/-- `SQCloudVMResult`. -/
def NCall.vmResultQ (vm : Ptr) : NCall := NCall.vq (NCallV.vmResultQ vm)

/-- `SQCloudVMColumnInt64`. -/
def NCall.vmColumnInt64Q (vm : Ptr) (idx : Int) : NCall :=
  NCall.vq (NCallV.vmColumnInt64Q vm idx)

/-- `SQCloudVMColumnDouble`. -/
def NCall.vmColumnDoubleQ (vm : Ptr) (idx : Int) : NCall :=
  NCall.vq (NCallV.vmColumnDoubleQ vm idx)

/-- `SQCloudVMColumnText`. -/
def NCall.vmColumnTextQ (vm : Ptr) (idx : Int) : NCall :=
  NCall.vq (NCallV.vmColumnTextQ vm idx)

/-- `SQCloudVMColumnBlob`. -/
def NCall.vmColumnBlobQ (vm : Ptr) (idx : Int) : NCall :=
  NCall.vq (NCallV.vmColumnBlobQ vm idx)

/-- A heap allocation the bridge itself performed (`new` or `calloc`) and
never freed, so it survives the call. -/
inductive Alloc where
  | newPubSubData (data : PubSubData)
  | callocBlock (count : Nat) (elemSize : Nat)
  deriving DecidableEq, Repr

/-- The outcome of one bridge call: the value returned to the host, the
native `SQCloud*` calls performed in order, and the surviving bridge
allocations. -/
structure BridgeOut (α : Type) where
  ret : α
  calls : List NCall
  allocs : List Alloc
  deriving DecidableEq, Repr

/-- The external native client library, as an abstract oracle: one field
per `SQCloud*` entry point the bridge invokes.  All fields are pure
queries over the pointer arguments. -/
structure NativeEnv where
  connectF : Option String → Int → SQCloudConfig → Ptr
  isErrorF : Ptr → Bool
  isSQLiteErrorF : Ptr → Bool
  errorCodeF : Ptr → Int
  errorMsgF : Ptr → String
  extendedErrorCodeF : Ptr → Int
  errorOffsetF : Ptr → Int
  vmErrorCodeF : Ptr → Int
  vmErrorMsgF : Ptr → String
  uuidF : Ptr → String
  execF : Ptr → Option String → Ptr
  execArrayF : Ptr → Option String → List CPtrVal → List Nat → List Int → Nat → Ptr
  resultTypeF : Ptr → Int
  setPubSubOnlyF : Ptr → Ptr
  blobReadF : Ptr → Ptr → Int → Int → Int
  blobWriteF : Ptr → Ptr → Int → Int → Int
  vmBindZeroBlobF : Ptr → Int → Int → Bool
  vmStepF : Ptr → Int
  vmCloseF : Ptr → Bool
  resultInt32F : Ptr → Int
  resultInt64F : Ptr → Int
  resultDoubleF : Ptr → JDouble
  resultBufferF : Ptr → CBuf
  resultLenF : Ptr → Nat
  arrayCountF : Ptr → Int
  arrayValueTypeF : Ptr → Int → Int
  arrayInt64ValueF : Ptr → Int → Int
  arrayDoubleValueF : Ptr → Int → JDouble
  arrayValueF : Ptr → Int → CBuf × Nat
  rowsetRowsF : Ptr → Int
  rowsetColsF : Ptr → Int
  rowsetColumnNameF : Ptr → Int → String
  rowsetValueTypeF : Ptr → Int → Int → Int
  rowsetInt64ValueF : Ptr → Int → Int → Int
  rowsetDoubleValueF : Ptr → Int → Int → JDouble
  rowsetValueF : Ptr → Int → Int → CBuf × Nat
  uploadDatabaseF : Ptr → Option String → Option String → JRef → Int → JRef → Bool
  downloadDatabaseF : Ptr → Option String → JRef → JRef → Bool
  blobOpenF : Ptr → Option String → Option String → Option String → Int → Nat → Ptr
  blobReOpenF : Ptr → Int → Bool
  blobCloseF : Ptr → Bool
  blobBytesF : Ptr → Int
  vmBindIntF : Ptr → Int → Int → Bool
  vmBindInt64F : Ptr → Int → Int → Bool
  vmBindDoubleF : Ptr → Int → JDouble → Bool
  vmBindTextF : Ptr → Int → Option String → Int → Bool
  vmBindBlobF : Ptr → Int → Ptr → Int → Bool
  vmBindNullF : Ptr → Int → Bool
  vmCompileF : Ptr → Option String → Int → Ptr
  vmColumnCountF : Ptr → Int
  vmLastRowIDF : Ptr → Int
  vmChangesF : Ptr → Int
  vmTotalChangesF : Ptr → Int
  vmIsReadOnlyF : Ptr → Bool
  vmIsExplainF : Ptr → Int
  vmIsFinalizedF : Ptr → Bool
  vmBindParameterCountF : Ptr → Int
  vmBindParameterIndexF : Ptr → Option String → Int
  vmBindParameterNameF : Ptr → Int → String
  vmColumnTypeF : Ptr → Int → Int
  vmResultF : Ptr → Ptr
  vmColumnInt64F : Ptr → Int → Int
  vmColumnDoubleF : Ptr → Int → JDouble
  vmColumnTextF : Ptr → Int → String
  vmColumnBlobF : Ptr → Int → Ptr × Nat

/-- `VALUE_BLOB` of the `SQCLOUD_VALUE_TYPE` enumeration of the external
`sqcloud.h`; only its identity matters to the bridge. -/
def VALUE_BLOB : Int := 4

/-- `static_cast<bool>` of a `jboolean` (an unsigned byte): true exactly
when nonzero. -/
def jbool (b : Nat) : Bool := b != 0

/-- The `SQCloudConfig` initializer of `doConnect`, field for field. -/
def doConnectConfig (username password database : Option String)
    (timeout family : Int)
    (compression sqlite_mode zero_text password_hashed nonlinearizable
      db_memory no_blob db_create : Nat)
    (max_data max_rows max_rowset : Int)
    (tls_root_certificate tls_certificate tls_certificate_key : Option String)
    (insecure : Nat) : SQCloudConfig :=
  { username := cString username
    password := cString password
    database := if database.isSome then cString database else none
    timeout := timeout
    family := family
    compression := jbool compression
    sqlite_mode := jbool sqlite_mode
    zero_text := jbool zero_text
    password_hashed := jbool password_hashed
    nonlinearizable := jbool nonlinearizable
    db_memory := jbool db_memory
    no_blob := jbool no_blob
    db_create := jbool db_create
    max_data := max_data
    max_rows := max_rows
    max_rowset := max_rowset
    tls_root_certificate := if tls_root_certificate.isSome then
        cString tls_root_certificate else none
    tls_certificate := if tls_certificate.isSome then
        cString tls_certificate else none
    tls_certificate_key := if tls_certificate_key.isSome then
        cString tls_certificate_key else none
    insecure := jbool insecure }

/-- The `bool`-typed fields of the config `doConnect` builds, in
initializer order. -/
def configBoolFields (c : SQCloudConfig) : List Bool :=
  [c.compression, c.sqlite_mode, c.zero_text, c.password_hashed,
   c.nonlinearizable, c.db_memory, c.no_blob, c.db_create, c.insecure]

/-- `Java_io_sqlitecloud_SQLiteCloudBridge_doConnect`: builds the config,
calls `SQCloudConnect`, wraps the resulting pointer. -/
def doConnect (env : NativeEnv) (thiz : SQLiteCloudBridge)
    (hostname : Option String) (port : Int)
    (username password database : Option String)
    (timeout family : Int)
    (compression sqlite_mode zero_text password_hashed nonlinearizable
      db_memory no_blob db_create : Nat)
    (max_data max_rows max_rowset : Int)
    (tls_root_certificate tls_certificate tls_certificate_key : Option String)
    (insecure : Nat) : BridgeOut JRef :=
  let config := doConnectConfig username password database timeout family
    compression sqlite_mode zero_text password_hashed nonlinearizable
    db_memory no_blob db_create max_data max_rows max_rowset
    tls_root_certificate tls_certificate tls_certificate_key insecure
  let connection := env.connectF (cString hostname) port config
  { ret := wrapPointer connection
    calls := [NCall.connect (cString hostname) port config]
    allocs := [] }

/-- `Java_io_sqlitecloud_SQLiteCloudBridge_doDisconnect`. -/
def doDisconnect (env : NativeEnv) (thiz : SQLiteCloudBridge) : BridgeOut Unit :=
  { ret := (), calls := [NCall.disconnect (getConnection thiz)], allocs := [] }

/-- `Java_io_sqlitecloud_SQLiteCloudBridge_isError`. -/
def isError (env : NativeEnv) (thiz : SQLiteCloudBridge) : BridgeOut Bool :=
  { ret := env.isErrorF (getConnection thiz)
    calls := [NCall.isErrorQ (getConnection thiz)]
    allocs := [] }

/-- `Java_io_sqlitecloud_SQLiteCloudBridge_isSQLiteError`. -/
def isSQLiteError (env : NativeEnv) (thiz : SQLiteCloudBridge) : BridgeOut Bool :=
  { ret := env.isSQLiteErrorF (getConnection thiz)
    calls := [NCall.isSQLiteErrorQ (getConnection thiz)]
    allocs := [] }

/-- `Java_io_sqlitecloud_SQLiteCloudBridge_errorCode`: guarded by
`SQCloudIsError`; boxes `SQCloudErrorCode` in a `java.lang.Integer`. -/
def errorCode (env : NativeEnv) (thiz : SQLiteCloudBridge) : BridgeOut JRef :=
  let connection := getConnection thiz
  if !(env.isErrorF connection) then
    { ret := JRef.jnull, calls := [NCall.isErrorQ connection], allocs := [] }
  else
    { ret := JRef.boxedInt (env.errorCodeF connection)
      calls := [NCall.isErrorQ connection, NCall.errorCodeQ connection]
      allocs := [] }

/-- `Java_io_sqlitecloud_SQLiteCloudBridge_errorMessage`: guarded by
`SQCloudIsError`; `NewStringUTF` of `SQCloudErrorMsg`. -/
def errorMessage (env : NativeEnv) (thiz : SQLiteCloudBridge) : BridgeOut JRef :=
  let connection := getConnection thiz
  if !(env.isErrorF connection) then
    { ret := JRef.jnull, calls := [NCall.isErrorQ connection], allocs := [] }
  else
    { ret := newStringUTF (env.errorMsgF connection)
      calls := [NCall.isErrorQ connection, NCall.errorMsgQ connection]
      allocs := [] }

/-- `Java_io_sqlitecloud_SQLiteCloudBridge_extendedErrorCode`. -/
def extendedErrorCode (env : NativeEnv) (thiz : SQLiteCloudBridge) : BridgeOut JRef :=
  let connection := getConnection thiz
  if !(env.isErrorF connection) then
    { ret := JRef.jnull, calls := [NCall.isErrorQ connection], allocs := [] }
  else
    { ret := JRef.boxedInt (env.extendedErrorCodeF connection)
      calls := [NCall.isErrorQ connection, NCall.extendedErrorCodeQ connection]
      allocs := [] }

/-- `Java_io_sqlitecloud_SQLiteCloudBridge_errorOffset`. -/
def errorOffset (env : NativeEnv) (thiz : SQLiteCloudBridge) : BridgeOut JRef :=
  let connection := getConnection thiz
  if !(env.isErrorF connection) then
    { ret := JRef.jnull, calls := [NCall.isErrorQ connection], allocs := [] }
  else
    { ret := JRef.boxedInt (env.errorOffsetF connection)
      calls := [NCall.isErrorQ connection, NCall.errorOffsetQ connection]
      allocs := [] }

/-- `Java_io_sqlitecloud_SQLiteCloudBridge_vmErrorCode`: null-VM guard,
then a boxed `SQCloudVMErrorCode`. -/
def vmErrorCode (env : NativeEnv) (thiz : SQLiteCloudBridge)
    (wrappedVM : JRef) : BridgeOut JRef :=
  let vm := unwrapVM wrappedVM
  if vm = 0 then
    { ret := JRef.jnull, calls := [], allocs := [] }
  else
    { ret := JRef.boxedInt (env.vmErrorCodeF vm)
      calls := [NCall.vmErrorCodeQ vm]
      allocs := [] }

/-- `Java_io_sqlitecloud_SQLiteCloudBridge_vmErrorMessage`: null-VM guard,
then `NewStringUTF` of `SQCloudVMErrorMsg`. -/
def vmErrorMessage (env : NativeEnv) (thiz : SQLiteCloudBridge)
    (wrappedVM : JRef) : BridgeOut JRef :=
  let vm := unwrapVM wrappedVM
  if vm = 0 then
    { ret := JRef.jnull, calls := [], allocs := [] }
  else
    { ret := newStringUTF (env.vmErrorMsgF vm)
      calls := [NCall.vmErrorMsgQ vm]
      allocs := [] }

/-- `pubSubCallback` from the source, the native trampoline: one
`CallVoidMethod` of the host object's `pubSubCallback(ByteBuffer)` with
the wrapped result. -/
def pubSubCallback (data : PubSubData) (connection : Ptr) (result : Ptr) :
    List HostUpcall :=
  [HostUpcall.pubSubMethod data.thiz (wrapPointer result)]

/-- Dispatch of a registered native callback identity to its semantics. -/
def runCallback : CBId → PubSubData → Ptr → Ptr → List HostUpcall
  | CBId.pubSubTrampoline => pubSubCallback

/-- `Java_io_sqlitecloud_SQLiteCloudBridge_setPubSubCallback`: allocates a
`PubSubData` with `new` and registers the trampoline with it. -/
def setPubSubCallback (env : NativeEnv) (jni : Ptr)
    (thiz : SQLiteCloudBridge) : BridgeOut Unit :=
  let data : PubSubData := { env := jni, thiz := thiz }
  { ret := ()
    calls := [NCall.setPubSubCB (getConnection thiz) CBId.pubSubTrampoline data]
    allocs := [Alloc.newPubSubData data] }

/-- `Java_io_sqlitecloud_SQLiteCloudBridge_setPubSubOnly`. -/
def setPubSubOnly (env : NativeEnv) (thiz : SQLiteCloudBridge) : BridgeOut JRef :=
  let result := env.setPubSubOnlyF (getConnection thiz)
  { ret := wrapPointer result
    calls := [NCall.setPubSubOnlyC (getConnection thiz)]
    allocs := [] }

/-- `Java_io_sqlitecloud_SQLiteCloudBridge_getClientUUID`: null-connection
guard, then `NewStringUTF` of `SQCloudUUID`. -/
def getClientUUID (env : NativeEnv) (thiz : SQLiteCloudBridge) : BridgeOut JRef :=
  let connection := getConnection thiz
  if connection = 0 then
    { ret := JRef.jnull, calls := [], allocs := [] }
  else
    { ret := newStringUTF (env.uuidF connection)
      calls := [NCall.uuidQ connection]
      allocs := [] }

/-- `Java_io_sqlitecloud_SQLiteCloudBridge_executeCommand`. -/
def executeCommand (env : NativeEnv) (thiz : SQLiteCloudBridge)
    (query : Option String) : BridgeOut JRef :=
  let connection := getConnection thiz
  let result := env.execF connection (cString query)
  { ret := wrapPointer result
    calls := [NCall.exec connection (cString query)]
    allocs := [] }

/-- The `i`-th entry of `nativeParams` in `executeArrayCommand`: the
direct-buffer address for a declared `VALUE_BLOB`, otherwise
`cString` of the parameter viewed as a `jstring`. -/
def marshalValue (ty : Int) (param : JRef) : CPtrVal :=
  if ty = VALUE_BLOB then
    CPtrVal.bufAddr (getDirectBufferAddress param)
  else
    match asJString param with
    | none => CPtrVal.nullp
    | some s => CPtrVal.utf8 s

/-- The `i`-th entry of `paramLengths` (a `uint32_t`) in
`executeArrayCommand`: `GetDirectBufferCapacity` for a declared
`VALUE_BLOB`, otherwise `GetStringLength` of the parameter. -/
def marshalLength (ty : Int) (param : JRef) : Nat :=
  if ty = VALUE_BLOB then
    uint32OfInt (getDirectBufferCapacity param)
  else
    match asJString param with
    | none => 0
    | some s => jniStringLength s

/-- `Java_io_sqlitecloud_SQLiteCloudBridge_executeArrayCommand`: callocs
the two marshaling arrays, fills them in the loop, and calls
`SQCloudExecArray` with the same types array and the parameter count. -/
def executeArrayCommand (env : NativeEnv) (thiz : SQLiteCloudBridge)
    (query : Option String) (params : List JRef) (param_types : List Int) :
    BridgeOut JRef :=
  let connection := getConnection thiz
  let command := cString query
  let paramCount := params.length
  let nativeParams := (List.range paramCount).map
    (fun i => marshalValue (param_types.getD i 0) (params.getD i JRef.jnull))
  let paramLengths := (List.range paramCount).map
    (fun i => marshalLength (param_types.getD i 0) (params.getD i JRef.jnull))
  let result := env.execArrayF connection command nativeParams paramLengths
    param_types paramCount
  { ret := wrapPointer result
    calls := [NCall.execArray connection command nativeParams paramLengths
      param_types paramCount]
    allocs := [Alloc.callocBlock paramCount ptrSize,
      Alloc.callocBlock paramCount 4] }

/-- `Java_io_sqlitecloud_SQLiteCloudBridge_freeResult`. -/
def freeResult (env : NativeEnv) (thiz : SQLiteCloudBridge)
    (wrappedResult : JRef) : BridgeOut Unit :=
  { ret := (), calls := [NCall.resultFree (unwrapResult wrappedResult)]
    allocs := [] }

/-- `Java_io_sqlitecloud_SQLiteCloudBridge_resultType`. -/
def resultType (env : NativeEnv) (thiz : SQLiteCloudBridge)
    (wrappedResult : JRef) : BridgeOut Int :=
  { ret := env.resultTypeF (unwrapResult wrappedResult)
    calls := [NCall.resultTypeQ (unwrapResult wrappedResult)]
    allocs := [] }

/-- `Java_io_sqlitecloud_SQLiteCloudBridge_readBlob`: `SQCloudBlobRead`
with the buffer's address, its full capacity, and offset `0`. -/
def readBlob (env : NativeEnv) (thiz : SQLiteCloudBridge)
    (handle : JRef) (buffer : JRef) : BridgeOut Int :=
  { ret := env.blobReadF (unwrapBlob handle) (getDirectBufferAddress buffer)
      (getDirectBufferCapacity buffer) 0
    calls := [NCall.blobRead (unwrapBlob handle)
      (getDirectBufferAddress buffer) (getDirectBufferCapacity buffer) 0]
    allocs := [] }

/-- `Java_io_sqlitecloud_SQLiteCloudBridge_writeBlob`: `SQCloudBlobWrite`
with the buffer's address, its full capacity, and offset `0`. -/
def writeBlob (env : NativeEnv) (thiz : SQLiteCloudBridge)
    (handle : JRef) (buffer : JRef) : BridgeOut Int :=
  { ret := env.blobWriteF (unwrapBlob handle) (getDirectBufferAddress buffer)
      (getDirectBufferCapacity buffer) 0
    calls := [NCall.blobWrite (unwrapBlob handle)
      (getDirectBufferAddress buffer) (getDirectBufferCapacity buffer) 0]
    allocs := [] }

/-- `Java_io_sqlitecloud_SQLiteCloudBridge_vmBindZeroBlob`:
`SQCloudVMBindZeroBlob` with the hard-coded length `0`. -/
def vmBindZeroBlob (env : NativeEnv) (thiz : SQLiteCloudBridge)
    (wrappedVM : JRef) (row_index : Int) : BridgeOut Bool :=
  let vm := unwrapVM wrappedVM
  { ret := env.vmBindZeroBlobF vm row_index 0
    calls := [NCall.vmBindZeroBlobC vm row_index 0]
    allocs := [] }

/-- `Java_io_sqlitecloud_SQLiteCloudBridge_vmStep`. -/
def vmStep (env : NativeEnv) (thiz : SQLiteCloudBridge)
    (wrappedVM : JRef) : BridgeOut Int :=
  let vm := unwrapVM wrappedVM
  { ret := env.vmStepF vm, calls := [NCall.vmStepC vm], allocs := [] }

/-- `Java_io_sqlitecloud_SQLiteCloudBridge_vmClose`. -/
def vmClose (env : NativeEnv) (thiz : SQLiteCloudBridge)
    (wrappedVM : JRef) : BridgeOut Bool :=
  let vm := unwrapVM wrappedVM
  { ret := env.vmCloseF vm, calls := [NCall.vmCloseC vm], allocs := [] }

/-- Replace only the `SQCloudIsError` oracle of a native environment, to
express independence of the connection's error state. -/
def setIsError (env : NativeEnv) (b : Ptr → Bool) : NativeEnv :=
  { env with isErrorF := b }

/-- `Java_io_sqlitecloud_SQLiteCloudBridge_intResult`. -/
def intResult (env : NativeEnv) (thiz : SQLiteCloudBridge)
    (wrappedResult : JRef) : BridgeOut Int :=
  { ret := env.resultInt32F (unwrapResult wrappedResult)
    calls := [NCall.resultInt32Q (unwrapResult wrappedResult)]
    allocs := [] }

/-- `Java_io_sqlitecloud_SQLiteCloudBridge_longResult`. -/
def longResult (env : NativeEnv) (thiz : SQLiteCloudBridge)
    (wrappedResult : JRef) : BridgeOut Int :=
  { ret := env.resultInt64F (unwrapResult wrappedResult)
    calls := [NCall.resultInt64Q (unwrapResult wrappedResult)]
    allocs := [] }

/-- `Java_io_sqlitecloud_SQLiteCloudBridge_doubleResult`. -/
def doubleResult (env : NativeEnv) (thiz : SQLiteCloudBridge)
    (wrappedResult : JRef) : BridgeOut JDouble :=
  { ret := env.resultDoubleF (unwrapResult wrappedResult)
    calls := [NCall.resultDoubleQ (unwrapResult wrappedResult)]
    allocs := [] }

/-- `Java_io_sqlitecloud_SQLiteCloudBridge_stringResult`: `NewStringUTF`
of `SQCloudResultBuffer`. -/
def stringResult (env : NativeEnv) (thiz : SQLiteCloudBridge)
    (wrappedResult : JRef) : BridgeOut JRef :=
  let result := unwrapResult wrappedResult
  { ret := newStringUTF (env.resultBufferF result).content
    calls := [NCall.resultBufferQ result]
    allocs := [] }

/-- `Java_io_sqlitecloud_SQLiteCloudBridge_bufferResult`:
`NewDirectByteBuffer` of `SQCloudResultBuffer` with length
`SQCloudResultLen`. -/
def bufferResult (env : NativeEnv) (thiz : SQLiteCloudBridge)
    (wrappedResult : JRef) : BridgeOut JRef :=
  let result := unwrapResult wrappedResult
  { ret := JRef.directBuffer (env.resultBufferF result).addr
      (env.resultLenF result)
    calls := [NCall.resultBufferQ result, NCall.resultLenQ result]
    allocs := [] }

/-- `Java_io_sqlitecloud_SQLiteCloudBridge_arrayResultSize`. -/
def arrayResultSize (env : NativeEnv) (thiz : SQLiteCloudBridge)
    (wrappedResult : JRef) : BridgeOut Int :=
  { ret := env.arrayCountF (unwrapResult wrappedResult)
    calls := [NCall.arrayCountQ (unwrapResult wrappedResult)]
    allocs := [] }

/-- `Java_io_sqlitecloud_SQLiteCloudBridge_arrayResultValueType`. -/
def arrayResultValueType (env : NativeEnv) (thiz : SQLiteCloudBridge)
    (wrappedResult : JRef) (index : Int) : BridgeOut Int :=
  { ret := env.arrayValueTypeF (unwrapResult wrappedResult) index
    calls := [NCall.arrayValueTypeQ (unwrapResult wrappedResult) index]
    allocs := [] }

/-- `Java_io_sqlitecloud_SQLiteCloudBridge_arrayResultLongValue`. -/
def arrayResultLongValue (env : NativeEnv) (thiz : SQLiteCloudBridge)
    (wrappedResult : JRef) (index : Int) : BridgeOut Int :=
  { ret := env.arrayInt64ValueF (unwrapResult wrappedResult) index
    calls := [NCall.arrayInt64ValueQ (unwrapResult wrappedResult) index]
    allocs := [] }

/-- `Java_io_sqlitecloud_SQLiteCloudBridge_arrayResultDoubleValue`. -/
def arrayResultDoubleValue (env : NativeEnv) (thiz : SQLiteCloudBridge)
    (wrappedResult : JRef) (index : Int) : BridgeOut JDouble :=
  { ret := env.arrayDoubleValueF (unwrapResult wrappedResult) index
    calls := [NCall.arrayDoubleValueQ (unwrapResult wrappedResult) index]
    allocs := [] }

/-- `Java_io_sqlitecloud_SQLiteCloudBridge_arrayResultStringValue`:
`NewStringUTF` of `SQCloudArrayValue`. -/
def arrayResultStringValue (env : NativeEnv) (thiz : SQLiteCloudBridge)
    (wrappedResult : JRef) (index : Int) : BridgeOut JRef :=
  let result := unwrapResult wrappedResult
  { ret := newStringUTF (env.arrayValueF result index).1.content
    calls := [NCall.arrayValueQ result index]
    allocs := [] }

/-- `Java_io_sqlitecloud_SQLiteCloudBridge_arrayResultBufferValue`:
`NewDirectByteBuffer` of `SQCloudArrayValue` with its out-param size. -/
def arrayResultBufferValue (env : NativeEnv) (thiz : SQLiteCloudBridge)
    (wrappedResult : JRef) (index : Int) : BridgeOut JRef :=
  let result := unwrapResult wrappedResult
  { ret := JRef.directBuffer (env.arrayValueF result index).1.addr
      (env.arrayValueF result index).2
    calls := [NCall.arrayValueQ result index]
    allocs := [] }

/-- `Java_io_sqlitecloud_SQLiteCloudBridge_rowsetResultRowCount`. -/
def rowsetResultRowCount (env : NativeEnv) (thiz : SQLiteCloudBridge)
    (wrappedResult : JRef) : BridgeOut Int :=
  { ret := env.rowsetRowsF (unwrapResult wrappedResult)
    calls := [NCall.rowsetRowsQ (unwrapResult wrappedResult)]
    allocs := [] }

/-- `Java_io_sqlitecloud_SQLiteCloudBridge_rowsetResultColumnCount`. -/
def rowsetResultColumnCount (env : NativeEnv) (thiz : SQLiteCloudBridge)
    (wrappedResult : JRef) : BridgeOut Int :=
  { ret := env.rowsetColsF (unwrapResult wrappedResult)
    calls := [NCall.rowsetColsQ (unwrapResult wrappedResult)]
    allocs := [] }

/-- `Java_io_sqlitecloud_SQLiteCloudBridge_rowsetResultColumnName`:
`NewStringUTF` of `SQCloudRowsetColumnName`. -/
def rowsetResultColumnName (env : NativeEnv) (thiz : SQLiteCloudBridge)
    (wrappedResult : JRef) (column : Int) : BridgeOut JRef :=
  let result := unwrapResult wrappedResult
  { ret := newStringUTF (env.rowsetColumnNameF result column)
    calls := [NCall.rowsetColumnNameQ result column]
    allocs := [] }

/-- `Java_io_sqlitecloud_SQLiteCloudBridge_rowsetResultValueType`. -/
def rowsetResultValueType (env : NativeEnv) (thiz : SQLiteCloudBridge)
    (wrappedResult : JRef) (row column : Int) : BridgeOut Int :=
  { ret := env.rowsetValueTypeF (unwrapResult wrappedResult) row column
    calls := [NCall.rowsetValueTypeQ (unwrapResult wrappedResult) row column]
    allocs := [] }

/-- `Java_io_sqlitecloud_SQLiteCloudBridge_rowsetResultLongValue`. -/
def rowsetResultLongValue (env : NativeEnv) (thiz : SQLiteCloudBridge)
    (wrappedResult : JRef) (row column : Int) : BridgeOut Int :=
  { ret := env.rowsetInt64ValueF (unwrapResult wrappedResult) row column
    calls := [NCall.rowsetInt64ValueQ (unwrapResult wrappedResult) row column]
    allocs := [] }

/-- `Java_io_sqlitecloud_SQLiteCloudBridge_rowsetResultDoubleValue`. -/
def rowsetResultDoubleValue (env : NativeEnv) (thiz : SQLiteCloudBridge)
    (wrappedResult : JRef) (row column : Int) : BridgeOut JDouble :=
  { ret := env.rowsetDoubleValueF (unwrapResult wrappedResult) row column
    calls := [NCall.rowsetDoubleValueQ (unwrapResult wrappedResult) row
      column]
    allocs := [] }

/-- `Java_io_sqlitecloud_SQLiteCloudBridge_rowsetResultStringValue`:
`NewStringUTF` of `SQCloudRowsetValue`. -/
def rowsetResultStringValue (env : NativeEnv) (thiz : SQLiteCloudBridge)
    (wrappedResult : JRef) (row column : Int) : BridgeOut JRef :=
  let result := unwrapResult wrappedResult
  { ret := newStringUTF (env.rowsetValueF result row column).1.content
    calls := [NCall.rowsetValueQ result row column]
    allocs := [] }

/-- `Java_io_sqlitecloud_SQLiteCloudBridge_rowsetResultBufferValue`:
`NewDirectByteBuffer` of `SQCloudRowsetValue` with its out-param size. -/
def rowsetResultBufferValue (env : NativeEnv) (thiz : SQLiteCloudBridge)
    (wrappedResult : JRef) (row column : Int) : BridgeOut JRef :=
  let result := unwrapResult wrappedResult
  { ret := JRef.directBuffer (env.rowsetValueF result row column).1.addr
      (env.rowsetValueF result row column).2
    calls := [NCall.rowsetValueQ result row column]
    allocs := [] }

/-- `Java_io_sqlitecloud_SQLiteCloudBridge_uploadDatabase`: forwards the
converted names, the data-handler object, the file size, and the callback
object reinterpreted as a native function pointer. -/
def uploadDatabase (env : NativeEnv) (thiz : SQLiteCloudBridge)
    (name encryption_key : Option String) (data_handler : JRef)
    (file_size : Int) (callback : JRef) : BridgeOut Bool :=
  { ret := env.uploadDatabaseF (getConnection thiz) (cString name)
      (cString encryption_key) data_handler file_size callback
    calls := [NCall.uploadDB (getConnection thiz) (cString name)
      (cString encryption_key) data_handler file_size callback]
    allocs := [] }

/-- `Java_io_sqlitecloud_SQLiteCloudBridge_downloadDatabase`. -/
def downloadDatabase (env : NativeEnv) (thiz : SQLiteCloudBridge)
    (name : Option String) (data_handler : JRef) (callback : JRef) :
    BridgeOut Bool :=
  { ret := env.downloadDatabaseF (getConnection thiz) (cString name)
      data_handler callback
    calls := [NCall.downloadDB (getConnection thiz) (cString name)
      data_handler callback]
    allocs := [] }

/-- `Java_io_sqlitecloud_SQLiteCloudBridge_openBlob`: `SQCloudBlobOpen`
with the converted strings, the row id and the read-write flag, result
wrapped. -/
def openBlob (env : NativeEnv) (thiz : SQLiteCloudBridge)
    (schema table column : Option String) (row_id : Int)
    (read_write : Nat) : BridgeOut JRef :=
  let handle := env.blobOpenF (getConnection thiz) (cString schema)
    (cString table) (cString column) row_id read_write
  { ret := wrapPointer handle
    calls := [NCall.blobOpenC (getConnection thiz) (cString schema)
      (cString table) (cString column) row_id read_write]
    allocs := [] }

/-- `Java_io_sqlitecloud_SQLiteCloudBridge_reopenBlob`. -/
def reopenBlob (env : NativeEnv) (thiz : SQLiteCloudBridge)
    (handle : JRef) (row_id : Int) : BridgeOut Bool :=
  { ret := env.blobReOpenF (unwrapBlob handle) row_id
    calls := [NCall.blobReOpenC (unwrapBlob handle) row_id]
    allocs := [] }

/-- `Java_io_sqlitecloud_SQLiteCloudBridge_closeBlob`. -/
def closeBlob (env : NativeEnv) (thiz : SQLiteCloudBridge)
    (handle : JRef) : BridgeOut Bool :=
  { ret := env.blobCloseF (unwrapBlob handle)
    calls := [NCall.blobCloseC (unwrapBlob handle)]
    allocs := [] }

/-- `Java_io_sqlitecloud_SQLiteCloudBridge_blobFieldSize`. -/
def blobFieldSize (env : NativeEnv) (thiz : SQLiteCloudBridge)
    (handle : JRef) : BridgeOut Int :=
  { ret := env.blobBytesF (unwrapBlob handle)
    calls := [NCall.blobBytesQ (unwrapBlob handle)]
    allocs := [] }

/-- `Java_io_sqlitecloud_SQLiteCloudBridge_vmBindInt`. -/
def vmBindInt (env : NativeEnv) (thiz : SQLiteCloudBridge)
    (wrappedVM : JRef) (row_index : Int) (value : Int) : BridgeOut Bool :=
  let vm := unwrapVM wrappedVM
  { ret := env.vmBindIntF vm row_index value
    calls := [NCall.vmBindIntC vm row_index value]
    allocs := [] }

/-- `Java_io_sqlitecloud_SQLiteCloudBridge_vmBindInt64`. -/
def vmBindInt64 (env : NativeEnv) (thiz : SQLiteCloudBridge)
    (wrappedVM : JRef) (row_index : Int) (value : Int) : BridgeOut Bool :=
  let vm := unwrapVM wrappedVM
  { ret := env.vmBindInt64F vm row_index value
    calls := [NCall.vmBindInt64C vm row_index value]
    allocs := [] }

/-- `Java_io_sqlitecloud_SQLiteCloudBridge_vmBindDouble`. -/
def vmBindDouble (env : NativeEnv) (thiz : SQLiteCloudBridge)
    (wrappedVM : JRef) (row_index : Int) (value : JDouble) :
    BridgeOut Bool :=
  let vm := unwrapVM wrappedVM
  { ret := env.vmBindDoubleF vm row_index value
    calls := [NCall.vmBindDoubleC vm row_index value]
    allocs := [] }

/-- `Java_io_sqlitecloud_SQLiteCloudBridge_vmBindText`: the byte size is
supplied by the host, not computed by the bridge. -/
def vmBindText (env : NativeEnv) (thiz : SQLiteCloudBridge)
    (wrappedVM : JRef) (row_index : Int) (value : Option String)
    (byteSize : Int) : BridgeOut Bool :=
  let vm := unwrapVM wrappedVM
  { ret := env.vmBindTextF vm row_index (cString value) byteSize
    calls := [NCall.vmBindTextC vm row_index (cString value) byteSize]
    allocs := [] }

/-- `Java_io_sqlitecloud_SQLiteCloudBridge_vmBindBlob`: the buffer's
address and full capacity. -/
def vmBindBlob (env : NativeEnv) (thiz : SQLiteCloudBridge)
    (wrappedVM : JRef) (row_index : Int) (value : JRef) : BridgeOut Bool :=
  let vm := unwrapVM wrappedVM
  { ret := env.vmBindBlobF vm row_index (unwrapPointer value)
      (getDirectBufferCapacity value)
    calls := [NCall.vmBindBlobC vm row_index (unwrapPointer value)
      (getDirectBufferCapacity value)]
    allocs := [] }

/-- `Java_io_sqlitecloud_SQLiteCloudBridge_vmBindNull`. -/
def vmBindNull (env : NativeEnv) (thiz : SQLiteCloudBridge)
    (wrappedVM : JRef) (row_index : Int) : BridgeOut Bool :=
  let vm := unwrapVM wrappedVM
  { ret := env.vmBindNullF vm row_index
    calls := [NCall.vmBindNullC vm row_index]
    allocs := [] }

/-- `Java_io_sqlitecloud_SQLiteCloudBridge_vmCompile`: `SQCloudVMCompile`
with the hard-coded length `-1` and NULL tail, result wrapped. -/
def vmCompile (env : NativeEnv) (thiz : SQLiteCloudBridge)
    (query : Option String) : BridgeOut JRef :=
  let result := env.vmCompileF (getConnection thiz) (cString query) (-1)
  { ret := wrapPointer result
    calls := [NCall.vmCompileC (getConnection thiz) (cString query) (-1)]
    allocs := [] }

/-- `Java_io_sqlitecloud_SQLiteCloudBridge_vmColumnCount`. -/
def vmColumnCount (env : NativeEnv) (thiz : SQLiteCloudBridge)
    (wrappedVM : JRef) : BridgeOut Int :=
  let vm := unwrapVM wrappedVM
  { ret := env.vmColumnCountF vm, calls := [NCall.vmColumnCountQ vm]
    allocs := [] }

/-- `Java_io_sqlitecloud_SQLiteCloudBridge_vmLastRowID`. -/
def vmLastRowID (env : NativeEnv) (thiz : SQLiteCloudBridge)
    (wrappedVM : JRef) : BridgeOut Int :=
  let vm := unwrapVM wrappedVM
  { ret := env.vmLastRowIDF vm, calls := [NCall.vmLastRowIDQ vm]
    allocs := [] }

/-- `Java_io_sqlitecloud_SQLiteCloudBridge_vmChanges`. -/
def vmChanges (env : NativeEnv) (thiz : SQLiteCloudBridge)
    (wrappedVM : JRef) : BridgeOut Int :=
  let vm := unwrapVM wrappedVM
  { ret := env.vmChangesF vm, calls := [NCall.vmChangesQ vm], allocs := [] }

/-- `Java_io_sqlitecloud_SQLiteCloudBridge_vmTotalChanges`. -/
def vmTotalChanges (env : NativeEnv) (thiz : SQLiteCloudBridge)
    (wrappedVM : JRef) : BridgeOut Int :=
  let vm := unwrapVM wrappedVM
  { ret := env.vmTotalChangesF vm, calls := [NCall.vmTotalChangesQ vm]
    allocs := [] }

/-- `Java_io_sqlitecloud_SQLiteCloudBridge_vmIsReadOnly`. -/
def vmIsReadOnly (env : NativeEnv) (thiz : SQLiteCloudBridge)
    (wrappedVM : JRef) : BridgeOut Bool :=
  let vm := unwrapVM wrappedVM
  { ret := env.vmIsReadOnlyF vm, calls := [NCall.vmIsReadOnlyQ vm]
    allocs := [] }

/-- `Java_io_sqlitecloud_SQLiteCloudBridge_vmIsExplain`. -/
def vmIsExplain (env : NativeEnv) (thiz : SQLiteCloudBridge)
    (wrappedVM : JRef) : BridgeOut Int :=
  let vm := unwrapVM wrappedVM
  { ret := env.vmIsExplainF vm, calls := [NCall.vmIsExplainQ vm]
    allocs := [] }

/-- `Java_io_sqlitecloud_SQLiteCloudBridge_vmIsFinalized`. -/
def vmIsFinalized (env : NativeEnv) (thiz : SQLiteCloudBridge)
    (wrappedVM : JRef) : BridgeOut Bool :=
  let vm := unwrapVM wrappedVM
  { ret := env.vmIsFinalizedF vm, calls := [NCall.vmIsFinalizedQ vm]
    allocs := [] }

/-- `Java_io_sqlitecloud_SQLiteCloudBridge_vmBindParameterCount`. -/
def vmBindParameterCount (env : NativeEnv) (thiz : SQLiteCloudBridge)
    (wrappedVM : JRef) : BridgeOut Int :=
  let vm := unwrapVM wrappedVM
  { ret := env.vmBindParameterCountF vm
    calls := [NCall.vmBindParameterCountQ vm]
    allocs := [] }

/-- `Java_io_sqlitecloud_SQLiteCloudBridge_vmBindParameterIndex`. -/
def vmBindParameterIndex (env : NativeEnv) (thiz : SQLiteCloudBridge)
    (wrappedVM : JRef) (name : Option String) : BridgeOut Int :=
  let vm := unwrapVM wrappedVM
  { ret := env.vmBindParameterIndexF vm (cString name)
    calls := [NCall.vmBindParameterIndexQ vm (cString name)]
    allocs := [] }

/-- `Java_io_sqlitecloud_SQLiteCloudBridge_vmBindParameterName`:
`NewStringUTF` of `SQCloudVMBindParameterName`. -/
def vmBindParameterName (env : NativeEnv) (thiz : SQLiteCloudBridge)
    (wrappedVM : JRef) (index : Int) : BridgeOut JRef :=
  let vm := unwrapVM wrappedVM
  { ret := newStringUTF (env.vmBindParameterNameF vm index)
    calls := [NCall.vmBindParameterNameQ vm index]
    allocs := [] }

/-- `Java_io_sqlitecloud_SQLiteCloudBridge_vmColumnType`. -/
def vmColumnType (env : NativeEnv) (thiz : SQLiteCloudBridge)
    (wrappedVM : JRef) (index : Int) : BridgeOut Int :=
  let vm := unwrapVM wrappedVM
  { ret := env.vmColumnTypeF vm index
    calls := [NCall.vmColumnTypeQ vm index]
    allocs := [] }

/-- `Java_io_sqlitecloud_SQLiteCloudBridge_vmResult`: `SQCloudVMResult`
wrapped. -/
def vmResult (env : NativeEnv) (thiz : SQLiteCloudBridge)
    (wrappedVM : JRef) : BridgeOut JRef :=
  let vm := unwrapVM wrappedVM
  let result := env.vmResultF vm
  { ret := wrapPointer result, calls := [NCall.vmResultQ vm], allocs := [] }

/-- `Java_io_sqlitecloud_SQLiteCloudBridge_rowsetColumnName`:
`NewStringUTF` of `SQCloudRowsetColumnName`. -/
def rowsetColumnName (env : NativeEnv) (thiz : SQLiteCloudBridge)
    (wrappedResult : JRef) (index : Int) : BridgeOut JRef :=
  let result := unwrapResult wrappedResult
  { ret := newStringUTF (env.rowsetColumnNameF result index)
    calls := [NCall.rowsetColumnNameQ result index]
    allocs := [] }

/-- `Java_io_sqlitecloud_SQLiteCloudBridge_vmColumnInt64`. -/
def vmColumnInt64 (env : NativeEnv) (thiz : SQLiteCloudBridge)
    (wrappedVM : JRef) (index : Int) : BridgeOut Int :=
  let vm := unwrapVM wrappedVM
  { ret := env.vmColumnInt64F vm index
    calls := [NCall.vmColumnInt64Q vm index]
    allocs := [] }

/-- `Java_io_sqlitecloud_SQLiteCloudBridge_vmColumnDouble`. -/
def vmColumnDouble (env : NativeEnv) (thiz : SQLiteCloudBridge)
    (wrappedVM : JRef) (index : Int) : BridgeOut JDouble :=
  let vm := unwrapVM wrappedVM
  { ret := env.vmColumnDoubleF vm index
    calls := [NCall.vmColumnDoubleQ vm index]
    allocs := [] }

/-- `Java_io_sqlitecloud_SQLiteCloudBridge_vmColumnText`: `NewStringUTF`
of `SQCloudVMColumnText`. -/
def vmColumnText (env : NativeEnv) (thiz : SQLiteCloudBridge)
    (wrappedVM : JRef) (index : Int) : BridgeOut JRef :=
  let vm := unwrapVM wrappedVM
  { ret := newStringUTF (env.vmColumnTextF vm index)
    calls := [NCall.vmColumnTextQ vm index]
    allocs := [] }

/-- `Java_io_sqlitecloud_SQLiteCloudBridge_vmColumnBlob`:
`NewDirectByteBuffer` of `SQCloudVMColumnBlob` with its out-param
length. -/
def vmColumnBlob (env : NativeEnv) (thiz : SQLiteCloudBridge)
    (wrappedVM : JRef) (index : Int) : BridgeOut JRef :=
  let vm := unwrapVM wrappedVM
  { ret := JRef.directBuffer (env.vmColumnBlobF vm index).1
      (env.vmColumnBlobF vm index).2
    calls := [NCall.vmColumnBlobQ vm index]
    allocs := [] }

/-- A concrete native environment in which no connection is in the error
state; used to instantiate universally quantified statements. -/
def envC : NativeEnv :=
  { connectF := fun _ _ _ => 0
    isErrorF := fun _ => false
    isSQLiteErrorF := fun _ => false
    errorCodeF := fun _ => 0
    errorMsgF := fun _ => ""
    extendedErrorCodeF := fun _ => 0
    errorOffsetF := fun _ => 0
    vmErrorCodeF := fun _ => 0
    vmErrorMsgF := fun _ => ""
    uuidF := fun _ => ""
    execF := fun _ _ => 0
    execArrayF := fun _ _ _ _ _ _ => 0
    resultTypeF := fun _ => 0
    setPubSubOnlyF := fun _ => 0
    blobReadF := fun _ _ _ _ => 0
    blobWriteF := fun _ _ _ _ => 0
    vmBindZeroBlobF := fun _ _ _ => true
    vmStepF := fun _ => 0
    vmCloseF := fun _ => true
    resultInt32F := fun _ => 0
    resultInt64F := fun _ => 0
    resultDoubleF := fun _ => 0
    resultBufferF := fun _ => { addr := 0, content := "" }
    resultLenF := fun _ => 0
    arrayCountF := fun _ => 0
    arrayValueTypeF := fun _ _ => 0
    arrayInt64ValueF := fun _ _ => 0
    arrayDoubleValueF := fun _ _ => 0
    arrayValueF := fun _ _ => ({ addr := 0, content := "" }, 0)
    rowsetRowsF := fun _ => 0
    rowsetColsF := fun _ => 0
    rowsetColumnNameF := fun _ _ => ""
    rowsetValueTypeF := fun _ _ _ => 0
    rowsetInt64ValueF := fun _ _ _ => 0
    rowsetDoubleValueF := fun _ _ _ => 0
    rowsetValueF := fun _ _ _ => ({ addr := 0, content := "" }, 0)
    uploadDatabaseF := fun _ _ _ _ _ _ => true
    downloadDatabaseF := fun _ _ _ _ => true
    blobOpenF := fun _ _ _ _ _ _ => 0
    blobReOpenF := fun _ _ => true
    blobCloseF := fun _ => true
    blobBytesF := fun _ => 0
    vmBindIntF := fun _ _ _ => true
    vmBindInt64F := fun _ _ _ => true
    vmBindDoubleF := fun _ _ _ => true
    vmBindTextF := fun _ _ _ _ => true
    vmBindBlobF := fun _ _ _ _ => true
    vmBindNullF := fun _ _ => true
    vmCompileF := fun _ _ _ => 0
    vmColumnCountF := fun _ => 0
    vmLastRowIDF := fun _ => 0
    vmChangesF := fun _ => 0
    vmTotalChangesF := fun _ => 0
    vmIsReadOnlyF := fun _ => true
    vmIsExplainF := fun _ => 0
    vmIsFinalizedF := fun _ => true
    vmBindParameterCountF := fun _ => 0
    vmBindParameterIndexF := fun _ _ => 0
    vmBindParameterNameF := fun _ _ => ""
    vmColumnTypeF := fun _ _ => 0
    vmResultF := fun _ => 0
    vmColumnInt64F := fun _ _ => 0
    vmColumnDoubleF := fun _ _ => 0
    vmColumnTextF := fun _ _ => ""
    vmColumnBlobF := fun _ _ => (0, 0) }

/-- The same concrete environment with every connection in the error
state, with distinguishable error values. -/
def envE : NativeEnv :=
  { envC with
    isErrorF := fun _ => true
    errorCodeF := fun _ => 10037
    errorMsgF := fun _ => "boom"
    extendedErrorCodeF := fun _ => 1
    errorOffsetF := fun _ => 3 }

/-- A concrete bridge object whose stored connection pointer is NULL. -/
def thiz0 : SQLiteCloudBridge := { connection := JRef.jnull }

/-- A concrete bridge object whose stored connection pointer is `7`. -/
def thiz1 : SQLiteCloudBridge := { connection := JRef.directBuffer 7 ptrSize }

/-- A wrapped pointer is the null reference exactly when the pointer is
NULL. -/
theorem wrapPointer_eq_jnull (p : Ptr) : wrapPointer p = JRef.jnull ↔ p = 0 := by
  unfold wrapPointer
  by_cases h : p = 0 <;> simp [h]

/-- Full behavior of `errorCode`: the `SQCloudIsError` guard decides
between the boxed accessor result and null. -/
theorem errorCode_spec (env : NativeEnv) (thiz : SQLiteCloudBridge) :
    errorCode env thiz =
      (if env.isErrorF (getConnection thiz) then
        { ret := JRef.boxedInt (env.errorCodeF (getConnection thiz))
          calls := [NCall.isErrorQ (getConnection thiz),
            NCall.errorCodeQ (getConnection thiz)]
          allocs := [] }
      else
        { ret := JRef.jnull
          calls := [NCall.isErrorQ (getConnection thiz)]
          allocs := [] }) := by
  by_cases h : env.isErrorF (getConnection thiz) <;> simp [errorCode, h]

/-- Full behavior of `errorMessage`: the `SQCloudIsError` guard decides
between the converted message and null. -/
theorem errorMessage_spec (env : NativeEnv) (thiz : SQLiteCloudBridge) :
    errorMessage env thiz =
      (if env.isErrorF (getConnection thiz) then
        { ret := newStringUTF (env.errorMsgF (getConnection thiz))
          calls := [NCall.isErrorQ (getConnection thiz),
            NCall.errorMsgQ (getConnection thiz)]
          allocs := [] }
      else
        { ret := JRef.jnull
          calls := [NCall.isErrorQ (getConnection thiz)]
          allocs := [] }) := by
  by_cases h : env.isErrorF (getConnection thiz) <;> simp [errorMessage, h]

/-- Full behavior of `extendedErrorCode`. -/
theorem extendedErrorCode_spec (env : NativeEnv)
    (thiz : SQLiteCloudBridge) :
    extendedErrorCode env thiz =
      (if env.isErrorF (getConnection thiz) then
        { ret := JRef.boxedInt (env.extendedErrorCodeF (getConnection thiz))
          calls := [NCall.isErrorQ (getConnection thiz),
            NCall.extendedErrorCodeQ (getConnection thiz)]
          allocs := [] }
      else
        { ret := JRef.jnull
          calls := [NCall.isErrorQ (getConnection thiz)]
          allocs := [] }) := by
  by_cases h : env.isErrorF (getConnection thiz) <;>
    simp [extendedErrorCode, h]

/-- Full behavior of `errorOffset`. -/
theorem errorOffset_spec (env : NativeEnv) (thiz : SQLiteCloudBridge) :
    errorOffset env thiz =
      (if env.isErrorF (getConnection thiz) then
        { ret := JRef.boxedInt (env.errorOffsetF (getConnection thiz))
          calls := [NCall.isErrorQ (getConnection thiz),
            NCall.errorOffsetQ (getConnection thiz)]
          allocs := [] }
      else
        { ret := JRef.jnull
          calls := [NCall.isErrorQ (getConnection thiz)]
          allocs := [] }) := by
  by_cases h : env.isErrorF (getConnection thiz) <;> simp [errorOffset, h]

/-- C1 counterexample: not every exported function returns a native API
result converted back after invoking the corresponding API: with no
error pending, `errorCode` returns a constant null and never invokes
`SQCloudErrorCode`, and under their null guards `getClientUUID` and
`vmErrorCode` return null having invoked no native API at all. -/
theorem bridge_universal_pass_through_fails :
    (errorCode envC thiz1).ret = JRef.jnull ∧
    (errorCode envC thiz1).calls = [NCall.isErrorQ 7] ∧
    NCall.errorCodeQ 7 ∉ (errorCode envC thiz1).calls ∧
    (getClientUUID envC thiz0).calls = [] ∧
    (getClientUUID envC thiz0).ret = JRef.jnull ∧
    (vmErrorCode envC thiz1 JRef.jnull).calls = [] := by
  decide

/-- C1 amended: every exported JNI bridge function converts its host
arguments into native values, invokes native `SQCloud*` client APIs with
those values, and returns either a native API's result converted back
into a host value or the null reference, performing no other computation
on the data; every function is an unconditional marshal-call-marshal
pass-through, except that `errorCode`, `errorMessage`,
`extendedErrorCode` and `errorOffset` first consult `SQCloudIsError` and
return null without invoking the accessor when it reports no error, and
`vmErrorCode`, `vmErrorMessage` and `getClientUUID` return null,
invoking no native API, when their handle is null.  The theorem gives
the complete behavior equation of all 54 exported functions. -/
theorem bridge_marshal_call_marshal (env : NativeEnv)
    (thiz : SQLiteCloudBridge)
    (query hostname username password database : Option String)
    (name encryption_key schema table blobColumn : Option String)
    (textValue paramName : Option String)
    (port timeout family max_data max_rows max_rowset : Int)
    (compression sqlite_mode zero_text password_hashed nonlinearizable
      db_memory no_blob db_create insecure read_write : Nat)
    (tls_root_certificate tls_certificate tls_certificate_key : Option String)
    (params : List JRef) (param_types : List Int)
    (wrappedVM wrappedResult handle buffer data_handler callback
      blobValue : JRef)
    (row_index index row column row_id file_size byteSize intValue
      int64Value : Int)
    (doubleValue : JDouble) (jni : Ptr) :
    errorCode env thiz =
      (if env.isErrorF (getConnection thiz) then
        { ret := JRef.boxedInt (env.errorCodeF (getConnection thiz))
          calls := [NCall.isErrorQ (getConnection thiz),
            NCall.errorCodeQ (getConnection thiz)]
          allocs := [] }
      else
        { ret := JRef.jnull
          calls := [NCall.isErrorQ (getConnection thiz)]
          allocs := [] }) ∧
    errorMessage env thiz =
      (if env.isErrorF (getConnection thiz) then
        { ret := newStringUTF (env.errorMsgF (getConnection thiz))
          calls := [NCall.isErrorQ (getConnection thiz),
            NCall.errorMsgQ (getConnection thiz)]
          allocs := [] }
      else
        { ret := JRef.jnull
          calls := [NCall.isErrorQ (getConnection thiz)]
          allocs := [] }) ∧
    extendedErrorCode env thiz =
      (if env.isErrorF (getConnection thiz) then
        { ret := JRef.boxedInt (env.extendedErrorCodeF (getConnection thiz))
          calls := [NCall.isErrorQ (getConnection thiz),
            NCall.extendedErrorCodeQ (getConnection thiz)]
          allocs := [] }
      else
        { ret := JRef.jnull
          calls := [NCall.isErrorQ (getConnection thiz)]
          allocs := [] }) ∧
    errorOffset env thiz =
      (if env.isErrorF (getConnection thiz) then
        { ret := JRef.boxedInt (env.errorOffsetF (getConnection thiz))
          calls := [NCall.isErrorQ (getConnection thiz),
            NCall.errorOffsetQ (getConnection thiz)]
          allocs := [] }
      else
        { ret := JRef.jnull
          calls := [NCall.isErrorQ (getConnection thiz)]
          allocs := [] }) ∧
    vmErrorCode env thiz wrappedVM =
      (if unwrapVM wrappedVM = 0 then
        { ret := JRef.jnull, calls := [], allocs := [] }
      else
        { ret := JRef.boxedInt (env.vmErrorCodeF (unwrapVM wrappedVM))
          calls := [NCall.vmErrorCodeQ (unwrapVM wrappedVM)]
          allocs := [] }) ∧
    vmErrorMessage env thiz wrappedVM =
      (if unwrapVM wrappedVM = 0 then
        { ret := JRef.jnull, calls := [], allocs := [] }
      else
        { ret := newStringUTF (env.vmErrorMsgF (unwrapVM wrappedVM))
          calls := [NCall.vmErrorMsgQ (unwrapVM wrappedVM)]
          allocs := [] }) ∧
    getClientUUID env thiz =
      (if getConnection thiz = 0 then
        { ret := JRef.jnull, calls := [], allocs := [] }
      else
        { ret := newStringUTF (env.uuidF (getConnection thiz))
          calls := [NCall.uuidQ (getConnection thiz)]
          allocs := [] }) ∧
    doConnect env thiz hostname port username password database timeout
        family compression sqlite_mode zero_text password_hashed
        nonlinearizable db_memory no_blob db_create max_data max_rows
        max_rowset tls_root_certificate tls_certificate
        tls_certificate_key insecure =
      { ret := wrapPointer (env.connectF (cString hostname) port
          (doConnectConfig username password database timeout family
            compression sqlite_mode zero_text password_hashed
            nonlinearizable db_memory no_blob db_create max_data max_rows
            max_rowset tls_root_certificate tls_certificate
            tls_certificate_key insecure))
        calls := [NCall.connect (cString hostname) port
          (doConnectConfig username password database timeout family
            compression sqlite_mode zero_text password_hashed
            nonlinearizable db_memory no_blob db_create max_data max_rows
            max_rowset tls_root_certificate tls_certificate
            tls_certificate_key insecure)]
        allocs := [] } ∧
    doDisconnect env thiz =
      { ret := (), calls := [NCall.disconnect (getConnection thiz)]
        allocs := [] } ∧
    isError env thiz =
      { ret := env.isErrorF (getConnection thiz)
        calls := [NCall.isErrorQ (getConnection thiz)]
        allocs := [] } ∧
    isSQLiteError env thiz =
      { ret := env.isSQLiteErrorF (getConnection thiz)
        calls := [NCall.isSQLiteErrorQ (getConnection thiz)]
        allocs := [] } ∧
    setPubSubCallback env jni thiz =
      { ret := ()
        calls := [NCall.setPubSubCB (getConnection thiz)
          CBId.pubSubTrampoline { env := jni, thiz := thiz }]
        allocs := [Alloc.newPubSubData { env := jni, thiz := thiz }] } ∧
    setPubSubOnly env thiz =
      { ret := wrapPointer (env.setPubSubOnlyF (getConnection thiz))
        calls := [NCall.setPubSubOnlyC (getConnection thiz)]
        allocs := [] } ∧
    executeCommand env thiz query =
      { ret := wrapPointer (env.execF (getConnection thiz) (cString query))
        calls := [NCall.exec (getConnection thiz) (cString query)]
        allocs := [] } ∧
    executeArrayCommand env thiz query params param_types =
      { ret := wrapPointer (env.execArrayF (getConnection thiz)
          (cString query)
          ((List.range params.length).map (fun i =>
            marshalValue (param_types.getD i 0) (params.getD i JRef.jnull)))
          ((List.range params.length).map (fun i =>
            marshalLength (param_types.getD i 0) (params.getD i JRef.jnull)))
          param_types params.length)
        calls := [NCall.execArray (getConnection thiz) (cString query)
          ((List.range params.length).map (fun i =>
            marshalValue (param_types.getD i 0) (params.getD i JRef.jnull)))
          ((List.range params.length).map (fun i =>
            marshalLength (param_types.getD i 0) (params.getD i JRef.jnull)))
          param_types params.length]
        allocs := [Alloc.callocBlock params.length ptrSize,
          Alloc.callocBlock params.length 4] } ∧
    freeResult env thiz wrappedResult =
      { ret := (), calls := [NCall.resultFree (unwrapResult wrappedResult)]
        allocs := [] } ∧
    resultType env thiz wrappedResult =
      { ret := env.resultTypeF (unwrapResult wrappedResult)
        calls := [NCall.resultTypeQ (unwrapResult wrappedResult)]
        allocs := [] } ∧
    intResult env thiz wrappedResult =
      { ret := env.resultInt32F (unwrapResult wrappedResult)
        calls := [NCall.resultInt32Q (unwrapResult wrappedResult)]
        allocs := [] } ∧
    longResult env thiz wrappedResult =
      { ret := env.resultInt64F (unwrapResult wrappedResult)
        calls := [NCall.resultInt64Q (unwrapResult wrappedResult)]
        allocs := [] } ∧
    doubleResult env thiz wrappedResult =
      { ret := env.resultDoubleF (unwrapResult wrappedResult)
        calls := [NCall.resultDoubleQ (unwrapResult wrappedResult)]
        allocs := [] } ∧
    stringResult env thiz wrappedResult =
      { ret := newStringUTF
          (env.resultBufferF (unwrapResult wrappedResult)).content
        calls := [NCall.resultBufferQ (unwrapResult wrappedResult)]
        allocs := [] } ∧
    bufferResult env thiz wrappedResult =
      { ret := JRef.directBuffer
          (env.resultBufferF (unwrapResult wrappedResult)).addr
          (env.resultLenF (unwrapResult wrappedResult))
        calls := [NCall.resultBufferQ (unwrapResult wrappedResult),
          NCall.resultLenQ (unwrapResult wrappedResult)]
        allocs := [] } ∧
    arrayResultSize env thiz wrappedResult =
      { ret := env.arrayCountF (unwrapResult wrappedResult)
        calls := [NCall.arrayCountQ (unwrapResult wrappedResult)]
        allocs := [] } ∧
    arrayResultValueType env thiz wrappedResult index =
      { ret := env.arrayValueTypeF (unwrapResult wrappedResult) index
        calls := [NCall.arrayValueTypeQ (unwrapResult wrappedResult) index]
        allocs := [] } ∧
    arrayResultLongValue env thiz wrappedResult index =
      { ret := env.arrayInt64ValueF (unwrapResult wrappedResult) index
        calls := [NCall.arrayInt64ValueQ (unwrapResult wrappedResult) index]
        allocs := [] } ∧
    arrayResultDoubleValue env thiz wrappedResult index =
      { ret := env.arrayDoubleValueF (unwrapResult wrappedResult) index
        calls := [NCall.arrayDoubleValueQ (unwrapResult wrappedResult)
          index]
        allocs := [] } ∧
    arrayResultStringValue env thiz wrappedResult index =
      { ret := newStringUTF
          (env.arrayValueF (unwrapResult wrappedResult) index).1.content
        calls := [NCall.arrayValueQ (unwrapResult wrappedResult) index]
        allocs := [] } ∧
    arrayResultBufferValue env thiz wrappedResult index =
      { ret := JRef.directBuffer
          (env.arrayValueF (unwrapResult wrappedResult) index).1.addr
          (env.arrayValueF (unwrapResult wrappedResult) index).2
        calls := [NCall.arrayValueQ (unwrapResult wrappedResult) index]
        allocs := [] } ∧
    rowsetResultRowCount env thiz wrappedResult =
      { ret := env.rowsetRowsF (unwrapResult wrappedResult)
        calls := [NCall.rowsetRowsQ (unwrapResult wrappedResult)]
        allocs := [] } ∧
    rowsetResultColumnCount env thiz wrappedResult =
      { ret := env.rowsetColsF (unwrapResult wrappedResult)
        calls := [NCall.rowsetColsQ (unwrapResult wrappedResult)]
        allocs := [] } ∧
    rowsetResultColumnName env thiz wrappedResult column =
      { ret := newStringUTF
          (env.rowsetColumnNameF (unwrapResult wrappedResult) column)
        calls := [NCall.rowsetColumnNameQ (unwrapResult wrappedResult)
          column]
        allocs := [] } ∧
    rowsetResultValueType env thiz wrappedResult row column =
      { ret := env.rowsetValueTypeF (unwrapResult wrappedResult) row column
        calls := [NCall.rowsetValueTypeQ (unwrapResult wrappedResult) row
          column]
        allocs := [] } ∧
    rowsetResultLongValue env thiz wrappedResult row column =
      { ret := env.rowsetInt64ValueF (unwrapResult wrappedResult) row
          column
        calls := [NCall.rowsetInt64ValueQ (unwrapResult wrappedResult) row
          column]
        allocs := [] } ∧
    rowsetResultDoubleValue env thiz wrappedResult row column =
      { ret := env.rowsetDoubleValueF (unwrapResult wrappedResult) row
          column
        calls := [NCall.rowsetDoubleValueQ (unwrapResult wrappedResult)
          row column]
        allocs := [] } ∧
    rowsetResultStringValue env thiz wrappedResult row column =
      { ret := newStringUTF
          (env.rowsetValueF (unwrapResult wrappedResult) row
            column).1.content
        calls := [NCall.rowsetValueQ (unwrapResult wrappedResult) row
          column]
        allocs := [] } ∧
    rowsetResultBufferValue env thiz wrappedResult row column =
      { ret := JRef.directBuffer
          (env.rowsetValueF (unwrapResult wrappedResult) row column).1.addr
          (env.rowsetValueF (unwrapResult wrappedResult) row column).2
        calls := [NCall.rowsetValueQ (unwrapResult wrappedResult) row
          column]
        allocs := [] } ∧
    uploadDatabase env thiz name encryption_key data_handler file_size
        callback =
      { ret := env.uploadDatabaseF (getConnection thiz) (cString name)
          (cString encryption_key) data_handler file_size callback
        calls := [NCall.uploadDB (getConnection thiz) (cString name)
          (cString encryption_key) data_handler file_size callback]
        allocs := [] } ∧
    downloadDatabase env thiz name data_handler callback =
      { ret := env.downloadDatabaseF (getConnection thiz) (cString name)
          data_handler callback
        calls := [NCall.downloadDB (getConnection thiz) (cString name)
          data_handler callback]
        allocs := [] } ∧
    openBlob env thiz schema table blobColumn row_id read_write =
      { ret := wrapPointer (env.blobOpenF (getConnection thiz)
          (cString schema) (cString table) (cString blobColumn) row_id
          read_write)
        calls := [NCall.blobOpenC (getConnection thiz) (cString schema)
          (cString table) (cString blobColumn) row_id read_write]
        allocs := [] } ∧
    reopenBlob env thiz handle row_id =
      { ret := env.blobReOpenF (unwrapBlob handle) row_id
        calls := [NCall.blobReOpenC (unwrapBlob handle) row_id]
        allocs := [] } ∧
    closeBlob env thiz handle =
      { ret := env.blobCloseF (unwrapBlob handle)
        calls := [NCall.blobCloseC (unwrapBlob handle)]
        allocs := [] } ∧
    blobFieldSize env thiz handle =
      { ret := env.blobBytesF (unwrapBlob handle)
        calls := [NCall.blobBytesQ (unwrapBlob handle)]
        allocs := [] } ∧
    readBlob env thiz handle buffer =
      { ret := env.blobReadF (unwrapBlob handle)
          (getDirectBufferAddress buffer) (getDirectBufferCapacity buffer)
          0
        calls := [NCall.blobRead (unwrapBlob handle)
          (getDirectBufferAddress buffer) (getDirectBufferCapacity buffer)
          0]
        allocs := [] } ∧
    writeBlob env thiz handle buffer =
      { ret := env.blobWriteF (unwrapBlob handle)
          (getDirectBufferAddress buffer) (getDirectBufferCapacity buffer)
          0
        calls := [NCall.blobWrite (unwrapBlob handle)
          (getDirectBufferAddress buffer) (getDirectBufferCapacity buffer)
          0]
        allocs := [] } ∧
    vmBindInt env thiz wrappedVM row_index intValue =
      { ret := env.vmBindIntF (unwrapVM wrappedVM) row_index intValue
        calls := [NCall.vmBindIntC (unwrapVM wrappedVM) row_index
          intValue]
        allocs := [] } ∧
    vmBindInt64 env thiz wrappedVM row_index int64Value =
      { ret := env.vmBindInt64F (unwrapVM wrappedVM) row_index int64Value
        calls := [NCall.vmBindInt64C (unwrapVM wrappedVM) row_index
          int64Value]
        allocs := [] } ∧
    vmBindDouble env thiz wrappedVM row_index doubleValue =
      { ret := env.vmBindDoubleF (unwrapVM wrappedVM) row_index
          doubleValue
        calls := [NCall.vmBindDoubleC (unwrapVM wrappedVM) row_index
          doubleValue]
        allocs := [] } ∧
    vmBindText env thiz wrappedVM row_index textValue byteSize =
      { ret := env.vmBindTextF (unwrapVM wrappedVM) row_index
          (cString textValue) byteSize
        calls := [NCall.vmBindTextC (unwrapVM wrappedVM) row_index
          (cString textValue) byteSize]
        allocs := [] } ∧
    vmBindBlob env thiz wrappedVM row_index blobValue =
      { ret := env.vmBindBlobF (unwrapVM wrappedVM) row_index
          (unwrapPointer blobValue) (getDirectBufferCapacity blobValue)
        calls := [NCall.vmBindBlobC (unwrapVM wrappedVM) row_index
          (unwrapPointer blobValue) (getDirectBufferCapacity blobValue)]
        allocs := [] } ∧
    vmBindZeroBlob env thiz wrappedVM row_index =
      { ret := env.vmBindZeroBlobF (unwrapVM wrappedVM) row_index 0
        calls := [NCall.vmBindZeroBlobC (unwrapVM wrappedVM) row_index 0]
        allocs := [] } ∧
    vmBindNull env thiz wrappedVM row_index =
      { ret := env.vmBindNullF (unwrapVM wrappedVM) row_index
        calls := [NCall.vmBindNullC (unwrapVM wrappedVM) row_index]
        allocs := [] } ∧
    vmCompile env thiz query =
      { ret := wrapPointer (env.vmCompileF (getConnection thiz)
          (cString query) (-1))
        calls := [NCall.vmCompileC (getConnection thiz) (cString query)
          (-1)]
        allocs := [] } ∧
    vmStep env thiz wrappedVM =
      { ret := env.vmStepF (unwrapVM wrappedVM)
        calls := [NCall.vmStepC (unwrapVM wrappedVM)]
        allocs := [] } ∧
    vmClose env thiz wrappedVM =
      { ret := env.vmCloseF (unwrapVM wrappedVM)
        calls := [NCall.vmCloseC (unwrapVM wrappedVM)]
        allocs := [] } ∧
    vmColumnCount env thiz wrappedVM =
      { ret := env.vmColumnCountF (unwrapVM wrappedVM)
        calls := [NCall.vmColumnCountQ (unwrapVM wrappedVM)]
        allocs := [] } ∧
    vmLastRowID env thiz wrappedVM =
      { ret := env.vmLastRowIDF (unwrapVM wrappedVM)
        calls := [NCall.vmLastRowIDQ (unwrapVM wrappedVM)]
        allocs := [] } ∧
    vmChanges env thiz wrappedVM =
      { ret := env.vmChangesF (unwrapVM wrappedVM)
        calls := [NCall.vmChangesQ (unwrapVM wrappedVM)]
        allocs := [] } ∧
    vmTotalChanges env thiz wrappedVM =
      { ret := env.vmTotalChangesF (unwrapVM wrappedVM)
        calls := [NCall.vmTotalChangesQ (unwrapVM wrappedVM)]
        allocs := [] } ∧
    vmIsReadOnly env thiz wrappedVM =
      { ret := env.vmIsReadOnlyF (unwrapVM wrappedVM)
        calls := [NCall.vmIsReadOnlyQ (unwrapVM wrappedVM)]
        allocs := [] } ∧
    vmIsExplain env thiz wrappedVM =
      { ret := env.vmIsExplainF (unwrapVM wrappedVM)
        calls := [NCall.vmIsExplainQ (unwrapVM wrappedVM)]
        allocs := [] } ∧
    vmIsFinalized env thiz wrappedVM =
      { ret := env.vmIsFinalizedF (unwrapVM wrappedVM)
        calls := [NCall.vmIsFinalizedQ (unwrapVM wrappedVM)]
        allocs := [] } ∧
    vmBindParameterCount env thiz wrappedVM =
      { ret := env.vmBindParameterCountF (unwrapVM wrappedVM)
        calls := [NCall.vmBindParameterCountQ (unwrapVM wrappedVM)]
        allocs := [] } ∧
    vmBindParameterIndex env thiz wrappedVM paramName =
      { ret := env.vmBindParameterIndexF (unwrapVM wrappedVM)
          (cString paramName)
        calls := [NCall.vmBindParameterIndexQ (unwrapVM wrappedVM)
          (cString paramName)]
        allocs := [] } ∧
    vmBindParameterName env thiz wrappedVM index =
      { ret := newStringUTF (env.vmBindParameterNameF (unwrapVM wrappedVM)
          index)
        calls := [NCall.vmBindParameterNameQ (unwrapVM wrappedVM) index]
        allocs := [] } ∧
    vmColumnType env thiz wrappedVM index =
      { ret := env.vmColumnTypeF (unwrapVM wrappedVM) index
        calls := [NCall.vmColumnTypeQ (unwrapVM wrappedVM) index]
        allocs := [] } ∧
    vmResult env thiz wrappedVM =
      { ret := wrapPointer (env.vmResultF (unwrapVM wrappedVM))
        calls := [NCall.vmResultQ (unwrapVM wrappedVM)]
        allocs := [] } ∧
    rowsetColumnName env thiz wrappedResult index =
      { ret := newStringUTF
          (env.rowsetColumnNameF (unwrapResult wrappedResult) index)
        calls := [NCall.rowsetColumnNameQ (unwrapResult wrappedResult)
          index]
        allocs := [] } ∧
    vmColumnInt64 env thiz wrappedVM index =
      { ret := env.vmColumnInt64F (unwrapVM wrappedVM) index
        calls := [NCall.vmColumnInt64Q (unwrapVM wrappedVM) index]
        allocs := [] } ∧
    vmColumnDouble env thiz wrappedVM index =
      { ret := env.vmColumnDoubleF (unwrapVM wrappedVM) index
        calls := [NCall.vmColumnDoubleQ (unwrapVM wrappedVM) index]
        allocs := [] } ∧
    vmColumnText env thiz wrappedVM index =
      { ret := newStringUTF (env.vmColumnTextF (unwrapVM wrappedVM) index)
        calls := [NCall.vmColumnTextQ (unwrapVM wrappedVM) index]
        allocs := [] } ∧
    vmColumnBlob env thiz wrappedVM index =
      { ret := JRef.directBuffer
          (env.vmColumnBlobF (unwrapVM wrappedVM) index).1
          (env.vmColumnBlobF (unwrapVM wrappedVM) index).2
        calls := [NCall.vmColumnBlobQ (unwrapVM wrappedVM) index]
        allocs := [] } :=
  ⟨errorCode_spec env thiz, errorMessage_spec env thiz,
   extendedErrorCode_spec env thiz, errorOffset_spec env thiz,
   rfl, rfl, rfl, rfl, rfl, rfl, rfl, rfl, rfl, rfl, rfl, rfl, rfl, rfl,
   rfl, rfl, rfl, rfl, rfl, rfl, rfl, rfl, rfl, rfl, rfl, rfl, rfl, rfl,
   rfl, rfl, rfl, rfl, rfl, rfl, rfl, rfl, rfl, rfl, rfl, rfl, rfl, rfl,
   rfl, rfl, rfl, rfl, rfl, rfl, rfl, rfl, rfl, rfl, rfl, rfl, rfl, rfl,
   rfl, rfl, rfl, rfl, rfl, rfl, rfl, rfl, rfl, rfl, rfl⟩

/-- C4: `errorCode`, `errorMessage`, `extendedErrorCode` and `errorOffset`
return the null reference exactly when `SQCloudIsError` is false; when it
is true they return the boxed `SQCloudErrorCode`, the
`SQCloudErrorMsg` string, the boxed `SQCloudExtendedErrorCode` and the
boxed `SQCloudErrorOffset`; the native calls they perform are only the
read-only queries listed (the oracle is pure, so the connection is not
modified). -/
theorem error_accessor_null_iff_no_error (env : NativeEnv)
    (thiz : SQLiteCloudBridge) :
    ((errorCode env thiz).ret = JRef.jnull ↔
      env.isErrorF (getConnection thiz) = false) ∧
    ((errorMessage env thiz).ret = JRef.jnull ↔
      env.isErrorF (getConnection thiz) = false) ∧
    ((extendedErrorCode env thiz).ret = JRef.jnull ↔
      env.isErrorF (getConnection thiz) = false) ∧
    ((errorOffset env thiz).ret = JRef.jnull ↔
      env.isErrorF (getConnection thiz) = false) ∧
    (errorCode env thiz).ret =
      (if env.isErrorF (getConnection thiz) then
        JRef.boxedInt (env.errorCodeF (getConnection thiz)) else JRef.jnull) ∧
    (errorMessage env thiz).ret =
      (if env.isErrorF (getConnection thiz) then
        newStringUTF (env.errorMsgF (getConnection thiz)) else JRef.jnull) ∧
    (extendedErrorCode env thiz).ret =
      (if env.isErrorF (getConnection thiz) then
        JRef.boxedInt (env.extendedErrorCodeF (getConnection thiz))
      else JRef.jnull) ∧
    (errorOffset env thiz).ret =
      (if env.isErrorF (getConnection thiz) then
        JRef.boxedInt (env.errorOffsetF (getConnection thiz))
      else JRef.jnull) ∧
    (errorCode env thiz).calls =
      (if env.isErrorF (getConnection thiz) then
        [NCall.isErrorQ (getConnection thiz),
         NCall.errorCodeQ (getConnection thiz)]
      else [NCall.isErrorQ (getConnection thiz)]) ∧
    (errorMessage env thiz).calls =
      (if env.isErrorF (getConnection thiz) then
        [NCall.isErrorQ (getConnection thiz),
         NCall.errorMsgQ (getConnection thiz)]
      else [NCall.isErrorQ (getConnection thiz)]) ∧
    (extendedErrorCode env thiz).calls =
      (if env.isErrorF (getConnection thiz) then
        [NCall.isErrorQ (getConnection thiz),
         NCall.extendedErrorCodeQ (getConnection thiz)]
      else [NCall.isErrorQ (getConnection thiz)]) ∧
    (errorOffset env thiz).calls =
      (if env.isErrorF (getConnection thiz) then
        [NCall.isErrorQ (getConnection thiz),
         NCall.errorOffsetQ (getConnection thiz)]
      else [NCall.isErrorQ (getConnection thiz)]) := by
  by_cases h : env.isErrorF (getConnection thiz) <;>
    simp [errorCode, errorMessage, extendedErrorCode, errorOffset, h,
      newStringUTF]

/-- C7: boxing and unboxing of native pointers round-trip: for a non-NULL
pointer, `unwrapPointer` (and the typed `unwrapResult`, `unwrapBlob`,
`unwrapVM`) recover exactly the pointer `wrapPointer` boxed, and
`wrapPointer` maps NULL to the null reference. -/
theorem wrap_unwrap_roundtrip (p : Ptr) (h : p ≠ 0) :
    unwrapPointer (wrapPointer p) = p ∧
    wrapPointer 0 = JRef.jnull ∧
    unwrapResult (wrapPointer p) = p ∧
    unwrapBlob (wrapPointer p) = p ∧
    unwrapVM (wrapPointer p) = p := by
  unfold unwrapResult unwrapBlob unwrapVM unwrapPointer wrapPointer
    getDirectBufferAddress
  simp [h]

/-- C7 witness: the round-trip evaluated at the concrete pointer `5`. -/
theorem wrap_unwrap_roundtrip_witness :
    unwrapPointer (wrapPointer 5) = 5 ∧ wrapPointer 0 = JRef.jnull :=
  ⟨(wrap_unwrap_roundtrip 5 (by decide)).1,
   (wrap_unwrap_roundtrip 5 (by decide)).2.1⟩

/-- C8: `setPubSubCallback` registers the native trampoline
`pubSubCallback` together with the freshly built `PubSubData` of the
registering object, and every delivery through the trampoline performs
exactly one upcall to the host object's `pubSubCallback(ByteBuffer)`
method, whose argument is the native result pointer wrapped (NULL
becoming the null reference), unmodified otherwise. -/
theorem pubsub_trampoline_forwarding (env : NativeEnv) (jni : Ptr)
    (thiz : SQLiteCloudBridge) (data : PubSubData) (conn result : Ptr) :
    (setPubSubCallback env jni thiz).calls =
      [NCall.setPubSubCB (getConnection thiz) CBId.pubSubTrampoline
        { env := jni, thiz := thiz }] ∧
    runCallback CBId.pubSubTrampoline data conn result =
      [HostUpcall.pubSubMethod data.thiz (wrapPointer result)] ∧
    (runCallback CBId.pubSubTrampoline data conn result).length = 1 ∧
    runCallback CBId.pubSubTrampoline data conn 0 =
      [HostUpcall.pubSubMethod data.thiz JRef.jnull] :=
  ⟨rfl, rfl, rfl, rfl⟩

/-- C9: `vmErrorCode` and `vmErrorMessage` return the null reference and
perform no native call when the wrapped VM unwraps to NULL, and
`getClientUUID` returns the null reference and performs no native call
when the stored connection pointer is NULL. -/
theorem null_handle_guards (env : NativeEnv) (thiz : SQLiteCloudBridge)
    (wrappedVM : JRef) :
    (unwrapVM wrappedVM = 0 →
      vmErrorCode env thiz wrappedVM =
        { ret := JRef.jnull, calls := [], allocs := [] } ∧
      vmErrorMessage env thiz wrappedVM =
        { ret := JRef.jnull, calls := [], allocs := [] }) ∧
    (getConnection thiz = 0 →
      getClientUUID env thiz =
        { ret := JRef.jnull, calls := [], allocs := [] }) := by
  constructor
  · intro h
    constructor <;> simp [vmErrorCode, vmErrorMessage, h]
  · intro h
    simp [getClientUUID, h]

/-- C9 witness: the guards taken at a null wrapped VM and a bridge object
whose connection field is the null reference. -/
theorem null_handle_guards_witness :
    vmErrorCode envC thiz0 JRef.jnull =
      { ret := JRef.jnull, calls := [], allocs := [] } ∧
    getClientUUID envC thiz0 =
      { ret := JRef.jnull, calls := [], allocs := [] } :=
  ⟨((null_handle_guards envC thiz0 JRef.jnull).1 rfl).1,
   (null_handle_guards envC thiz0 JRef.jnull).2 rfl⟩

/-- C10: `readBlob` and `writeBlob` always invoke the native blob
read/write with offset `0` and length equal to the full capacity of the
supplied direct buffer, and `vmBindZeroBlob` always binds a zero blob of
length `0`: for all inputs the single native call carries exactly these
constants, so no other offset or length is reachable through the
bridge. -/
theorem blob_constants_hardcoded (env : NativeEnv)
    (thiz : SQLiteCloudBridge) (handle buffer wrappedVM : JRef)
    (row_index : Int) (a : Ptr) (cap : Nat) :
    (readBlob env thiz handle buffer).calls =
      [NCall.blobRead (unwrapBlob handle) (getDirectBufferAddress buffer)
        (getDirectBufferCapacity buffer) 0] ∧
    (writeBlob env thiz handle buffer).calls =
      [NCall.blobWrite (unwrapBlob handle) (getDirectBufferAddress buffer)
        (getDirectBufferCapacity buffer) 0] ∧
    (vmBindZeroBlob env thiz wrappedVM row_index).calls =
      [NCall.vmBindZeroBlobC (unwrapVM wrappedVM) row_index 0] ∧
    getDirectBufferCapacity (JRef.directBuffer a cap) = (cap : Int) :=
  ⟨rfl, rfl, rfl, rfl⟩

/-- C2 counterexample: `errorCode` does inspect the connection's error
state and branches on it: with the error state false it returns null and
suppresses the `SQCloudErrorCode` call, while with the error state true
it forwards it — refuting "no exported function inspects the
connection's error state, branches on it, or suppresses a forwarded
call; every function forwards unconditionally". -/
theorem error_accessors_branch_on_error_state :
    (errorCode envC thiz1).calls = [NCall.isErrorQ 7] ∧
    NCall.errorCodeQ 7 ∉ (errorCode envC thiz1).calls ∧
    (errorCode envC thiz1).ret = JRef.jnull ∧
    (errorCode envE thiz1).calls = [NCall.isErrorQ 7, NCall.errorCodeQ 7] ∧
    (errorCode envE thiz1).ret = JRef.boxedInt 10037 := by
  decide

/-- C2 amended: except for `errorCode`, `errorMessage`,
`extendedErrorCode` and `errorOffset` — which consult `SQCloudIsError`
and return null, suppressing the accessor call, when it reports no
error — no exported function inspects or branches on the connection's
error state: every other embedded function behaves identically under any
change of the `SQCloudIsError` oracle, and `isError`/`isSQLiteError`
forward their query unconditionally. -/
theorem error_state_guard_localized (env : NativeEnv) (b : Ptr → Bool)
    (thiz : SQLiteCloudBridge) (query : Option String)
    (params : List JRef) (param_types : List Int)
    (wrappedVM wrappedResult handle buffer : JRef) (row_index : Int)
    (jni : Ptr)
    (hostname username password database : Option String)
    (port timeout family max_data max_rows max_rowset : Int)
    (compression sqlite_mode zero_text password_hashed nonlinearizable
      db_memory no_blob db_create insecure : Nat)
    (tls_root_certificate tls_certificate tls_certificate_key : Option String) :
    (errorCode env thiz).calls =
      (if env.isErrorF (getConnection thiz) then
        [NCall.isErrorQ (getConnection thiz),
         NCall.errorCodeQ (getConnection thiz)]
      else [NCall.isErrorQ (getConnection thiz)]) ∧
    (errorMessage env thiz).calls =
      (if env.isErrorF (getConnection thiz) then
        [NCall.isErrorQ (getConnection thiz),
         NCall.errorMsgQ (getConnection thiz)]
      else [NCall.isErrorQ (getConnection thiz)]) ∧
    (extendedErrorCode env thiz).calls =
      (if env.isErrorF (getConnection thiz) then
        [NCall.isErrorQ (getConnection thiz),
         NCall.extendedErrorCodeQ (getConnection thiz)]
      else [NCall.isErrorQ (getConnection thiz)]) ∧
    (errorOffset env thiz).calls =
      (if env.isErrorF (getConnection thiz) then
        [NCall.isErrorQ (getConnection thiz),
         NCall.errorOffsetQ (getConnection thiz)]
      else [NCall.isErrorQ (getConnection thiz)]) ∧
    executeCommand (setIsError env b) thiz query =
      executeCommand env thiz query ∧
    executeArrayCommand (setIsError env b) thiz query params param_types =
      executeArrayCommand env thiz query params param_types ∧
    vmStep (setIsError env b) thiz wrappedVM = vmStep env thiz wrappedVM ∧
    doDisconnect (setIsError env b) thiz = doDisconnect env thiz ∧
    freeResult (setIsError env b) thiz wrappedResult =
      freeResult env thiz wrappedResult ∧
    resultType (setIsError env b) thiz wrappedResult =
      resultType env thiz wrappedResult ∧
    setPubSubOnly (setIsError env b) thiz = setPubSubOnly env thiz ∧
    setPubSubCallback (setIsError env b) jni thiz =
      setPubSubCallback env jni thiz ∧
    getClientUUID (setIsError env b) thiz = getClientUUID env thiz ∧
    vmErrorCode (setIsError env b) thiz wrappedVM =
      vmErrorCode env thiz wrappedVM ∧
    vmErrorMessage (setIsError env b) thiz wrappedVM =
      vmErrorMessage env thiz wrappedVM ∧
    readBlob (setIsError env b) thiz handle buffer =
      readBlob env thiz handle buffer ∧
    writeBlob (setIsError env b) thiz handle buffer =
      writeBlob env thiz handle buffer ∧
    vmBindZeroBlob (setIsError env b) thiz wrappedVM row_index =
      vmBindZeroBlob env thiz wrappedVM row_index ∧
    vmClose (setIsError env b) thiz wrappedVM = vmClose env thiz wrappedVM ∧
    doConnect (setIsError env b) thiz hostname port username password
        database timeout family compression sqlite_mode zero_text
        password_hashed nonlinearizable db_memory no_blob db_create
        max_data max_rows max_rowset tls_root_certificate tls_certificate
        tls_certificate_key insecure =
      doConnect env thiz hostname port username password database timeout
        family compression sqlite_mode zero_text password_hashed
        nonlinearizable db_memory no_blob db_create max_data max_rows
        max_rowset tls_root_certificate tls_certificate
        tls_certificate_key insecure ∧
    (isError env thiz).calls = [NCall.isErrorQ (getConnection thiz)] ∧
    (isSQLiteError env thiz).calls =
      [NCall.isSQLiteErrorQ (getConnection thiz)] := by
  by_cases h : env.isErrorF (getConnection thiz) <;>
    refine ⟨?_, ?_, ?_, ?_, rfl, rfl, rfl, rfl, rfl, rfl, rfl, rfl, rfl,
      rfl, rfl, rfl, rfl, rfl, rfl, rfl, rfl, rfl⟩ <;>
    simp [errorCode, errorMessage, extendedErrorCode, errorOffset, h]

/-- C3 counterexample: the bridge does retain state of its own after a
call returns: `setPubSubCallback` allocates a `PubSubData` registration
record with `new`, and `executeArrayCommand` leaves its two `calloc`ed
marshaling arrays allocated — refuting "after any operation returns the
bridge itself holds no memory, registration record, or cached value of
its own". -/
theorem bridge_allocations_exist :
    (setPubSubCallback envC 42 thiz1).allocs =
      [Alloc.newPubSubData { env := 42, thiz := thiz1 }] ∧
    (setPubSubCallback envC 42 thiz1).allocs ≠ [] ∧
    (executeArrayCommand envC thiz1 (some "q") [JRef.jstr "x"] [3]).allocs =
      [Alloc.callocBlock 1 ptrSize, Alloc.callocBlock 1 4] ∧
    (executeArrayCommand envC thiz1 (some "q") [JRef.jstr "x"] [3]).allocs ≠
      [] := by
  decide

/-- C3 amended: every embedded bridge operation except
`setPubSubCallback` and `executeArrayCommand` retains no bridging-layer
allocation after it returns; `setPubSubCallback` retains exactly the
`PubSubData` record it registers with the native library, and
`executeArrayCommand` leaves exactly its two `calloc`ed marshaling
arrays (one pointer-sized and one `uint32_t`-sized entry per
parameter). -/
theorem bridge_allocation_characterization (env : NativeEnv) (jni : Ptr)
    (thiz : SQLiteCloudBridge) (query : Option String)
    (params : List JRef) (param_types : List Int)
    (wrappedVM wrappedResult handle buffer : JRef) (row_index : Int)
    (hostname username password database : Option String)
    (port timeout family max_data max_rows max_rowset : Int)
    (compression sqlite_mode zero_text password_hashed nonlinearizable
      db_memory no_blob db_create insecure : Nat)
    (tls_root_certificate tls_certificate tls_certificate_key : Option String) :
    (setPubSubCallback env jni thiz).allocs =
      [Alloc.newPubSubData { env := jni, thiz := thiz }] ∧
    (executeArrayCommand env thiz query params param_types).allocs =
      [Alloc.callocBlock params.length ptrSize,
       Alloc.callocBlock params.length 4] ∧
    (doConnect env thiz hostname port username password database timeout
      family compression sqlite_mode zero_text password_hashed
      nonlinearizable db_memory no_blob db_create max_data max_rows
      max_rowset tls_root_certificate tls_certificate tls_certificate_key
      insecure).allocs = [] ∧
    (doDisconnect env thiz).allocs = [] ∧
    (isError env thiz).allocs = [] ∧
    (isSQLiteError env thiz).allocs = [] ∧
    (errorCode env thiz).allocs = [] ∧
    (errorMessage env thiz).allocs = [] ∧
    (extendedErrorCode env thiz).allocs = [] ∧
    (errorOffset env thiz).allocs = [] ∧
    (vmErrorCode env thiz wrappedVM).allocs = [] ∧
    (vmErrorMessage env thiz wrappedVM).allocs = [] ∧
    (setPubSubOnly env thiz).allocs = [] ∧
    (getClientUUID env thiz).allocs = [] ∧
    (executeCommand env thiz query).allocs = [] ∧
    (freeResult env thiz wrappedResult).allocs = [] ∧
    (resultType env thiz wrappedResult).allocs = [] ∧
    (readBlob env thiz handle buffer).allocs = [] ∧
    (writeBlob env thiz handle buffer).allocs = [] ∧
    (vmBindZeroBlob env thiz wrappedVM row_index).allocs = [] ∧
    (vmStep env thiz wrappedVM).allocs = [] ∧
    (vmClose env thiz wrappedVM).allocs = [] := by
  refine ⟨rfl, rfl, rfl, rfl, rfl, rfl, ?_, ?_, ?_, ?_, ?_, ?_, rfl, ?_,
    rfl, rfl, rfl, rfl, rfl, rfl, rfl, rfl⟩ <;>
  · simp only [errorCode, errorMessage, extendedErrorCode, errorOffset,
      vmErrorCode, vmErrorMessage, getClientUUID]
    split <;> rfl

/-- C5 counterexample: the config `doConnect` builds has exactly nine
`bool` flags (compression, sqlite_mode, zero_text, password_hashed,
nonlinearizable, db_memory, no_blob, db_create, insecure), not
thirteen. -/
theorem config_has_nine_bool_flags :
    (configBoolFields (doConnectConfig none none none 0 0 0 0 0 0 0 0 0 0
      0 0 0 none none none 0)).length = 9 ∧
    (configBoolFields (doConnectConfig none none none 0 0 0 0 0 0 0 0 0 0
      0 0 0 none none none 0)).length ≠ 13 := by
  decide

/-- C5 amended: `doConnect` builds a `SQCloudConfig` in which each of the
nine boolean flags equals the corresponding `jboolean` argument cast to
`bool`, each integer field equals the corresponding `jint` argument, and
each optional string field is NULL exactly when the host passed null; it
then calls `SQCloudConnect` with the converted hostname, the port, and
that config, and returns the null reference exactly when `SQCloudConnect`
returned NULL, otherwise a box of the returned connection pointer. -/
theorem doConnect_marshaling (env : NativeEnv) (thiz : SQLiteCloudBridge)
    (hostname username password database : Option String)
    (port timeout family max_data max_rows max_rowset : Int)
    (compression sqlite_mode zero_text password_hashed nonlinearizable
      db_memory no_blob db_create insecure : Nat)
    (tls_root_certificate tls_certificate tls_certificate_key : Option String) :
    configBoolFields (doConnectConfig username password database timeout
        family compression sqlite_mode zero_text password_hashed
        nonlinearizable db_memory no_blob db_create max_data max_rows
        max_rowset tls_root_certificate tls_certificate
        tls_certificate_key insecure) =
      [jbool compression, jbool sqlite_mode, jbool zero_text,
       jbool password_hashed, jbool nonlinearizable, jbool db_memory,
       jbool no_blob, jbool db_create, jbool insecure] ∧
    (doConnectConfig username password database timeout family compression
        sqlite_mode zero_text password_hashed nonlinearizable db_memory
        no_blob db_create max_data max_rows max_rowset
        tls_root_certificate tls_certificate tls_certificate_key
        insecure).timeout = timeout ∧
    (doConnectConfig username password database timeout family compression
        sqlite_mode zero_text password_hashed nonlinearizable db_memory
        no_blob db_create max_data max_rows max_rowset
        tls_root_certificate tls_certificate tls_certificate_key
        insecure).family = family ∧
    (doConnectConfig username password database timeout family compression
        sqlite_mode zero_text password_hashed nonlinearizable db_memory
        no_blob db_create max_data max_rows max_rowset
        tls_root_certificate tls_certificate tls_certificate_key
        insecure).max_data = max_data ∧
    (doConnectConfig username password database timeout family compression
        sqlite_mode zero_text password_hashed nonlinearizable db_memory
        no_blob db_create max_data max_rows max_rowset
        tls_root_certificate tls_certificate tls_certificate_key
        insecure).max_rows = max_rows ∧
    (doConnectConfig username password database timeout family compression
        sqlite_mode zero_text password_hashed nonlinearizable db_memory
        no_blob db_create max_data max_rows max_rowset
        tls_root_certificate tls_certificate tls_certificate_key
        insecure).max_rowset = max_rowset ∧
    ((doConnectConfig username password database timeout family
        compression sqlite_mode zero_text password_hashed nonlinearizable
        db_memory no_blob db_create max_data max_rows max_rowset
        tls_root_certificate tls_certificate tls_certificate_key
        insecure).database = none ↔ database = none) ∧
    ((doConnectConfig username password database timeout family
        compression sqlite_mode zero_text password_hashed nonlinearizable
        db_memory no_blob db_create max_data max_rows max_rowset
        tls_root_certificate tls_certificate tls_certificate_key
        insecure).tls_root_certificate = none ↔
      tls_root_certificate = none) ∧
    ((doConnectConfig username password database timeout family
        compression sqlite_mode zero_text password_hashed nonlinearizable
        db_memory no_blob db_create max_data max_rows max_rowset
        tls_root_certificate tls_certificate tls_certificate_key
        insecure).tls_certificate = none ↔ tls_certificate = none) ∧
    ((doConnectConfig username password database timeout family
        compression sqlite_mode zero_text password_hashed nonlinearizable
        db_memory no_blob db_create max_data max_rows max_rowset
        tls_root_certificate tls_certificate tls_certificate_key
        insecure).tls_certificate_key = none ↔
      tls_certificate_key = none) ∧
    doConnect env thiz hostname port username password database timeout
        family compression sqlite_mode zero_text password_hashed
        nonlinearizable db_memory no_blob db_create max_data max_rows
        max_rowset tls_root_certificate tls_certificate
        tls_certificate_key insecure =
      { ret := wrapPointer (env.connectF (cString hostname) port
          (doConnectConfig username password database timeout family
            compression sqlite_mode zero_text password_hashed
            nonlinearizable db_memory no_blob db_create max_data max_rows
            max_rowset tls_root_certificate tls_certificate
            tls_certificate_key insecure))
        calls := [NCall.connect (cString hostname) port
          (doConnectConfig username password database timeout family
            compression sqlite_mode zero_text password_hashed
            nonlinearizable db_memory no_blob db_create max_data max_rows
            max_rowset tls_root_certificate tls_certificate
            tls_certificate_key insecure)]
        allocs := [] } ∧
    ((doConnect env thiz hostname port username password database timeout
        family compression sqlite_mode zero_text password_hashed
        nonlinearizable db_memory no_blob db_create max_data max_rows
        max_rowset tls_root_certificate tls_certificate
        tls_certificate_key insecure).ret = JRef.jnull ↔
      env.connectF (cString hostname) port
        (doConnectConfig username password database timeout family
          compression sqlite_mode zero_text password_hashed
          nonlinearizable db_memory no_blob db_create max_data max_rows
          max_rowset tls_root_certificate tls_certificate
          tls_certificate_key insecure) = 0) := by
  refine ⟨rfl, rfl, rfl, rfl, rfl, rfl, ?_, ?_, ?_, ?_, rfl, ?_⟩
  · cases database <;> simp [doConnectConfig, cString]
  · cases tls_root_certificate <;> simp [doConnectConfig, cString]
  · cases tls_certificate <;> simp [doConnectConfig, cString]
  · cases tls_certificate_key <;> simp [doConnectConfig, cString]
  · exact wrapPointer_eq_jnull _

/-- C6 counterexample: for a one-character non-ASCII string parameter the
forwarded length is `GetStringLength` (UTF-16 code units, here `1`), not
the string's UTF-8 byte count (here `2`) — refuting "the i-th length is
that string's length in bytes". -/
theorem execArray_length_not_bytes :
    (executeArrayCommand envC thiz1 (some "q") [JRef.jstr "é"] [3]).calls =
      [NCall.execArray 7 (some "q") [CPtrVal.utf8 "é"] [1] [3] 1] ∧
    String.utf8ByteSize "é" = 2 ∧
    (1 : Nat) ≠ 2 := by
  refine ⟨by decide, by decide, by decide⟩

/-- C6 amended: `executeArrayCommand` with `n` parameters calls
`SQCloudExecArray` with parameter count `n` and, for each index `i` below
`n`: if the declared type at `i` is `VALUE_BLOB`, the `i`-th value is the
parameter buffer's direct address and the `i`-th length is that buffer's
capacity in bytes (as a `uint32_t`); otherwise the `i`-th value is the
parameter string's UTF conversion and the `i`-th length is the string's
length in UTF-16 code units as returned by `GetStringLength` (not its
UTF-8 byte count); the declared types array is forwarded unchanged. -/
theorem execArray_marshaling (env : NativeEnv) (thiz : SQLiteCloudBridge)
    (query : Option String) (params : List JRef) (param_types : List Int) :
    ∃ V L,
      (executeArrayCommand env thiz query params param_types).calls =
        [NCall.execArray (getConnection thiz) (cString query) V L
          param_types params.length] ∧
      V.length = params.length ∧ L.length = params.length ∧
      ∀ i, i < params.length →
        (param_types.getD i 0 = VALUE_BLOB →
          V[i]? = some (CPtrVal.bufAddr
            (getDirectBufferAddress (params.getD i JRef.jnull))) ∧
          L[i]? = some (uint32OfInt
            (getDirectBufferCapacity (params.getD i JRef.jnull)))) ∧
        (param_types.getD i 0 ≠ VALUE_BLOB →
          ∀ s, asJString (params.getD i JRef.jnull) = some s →
            V[i]? = some (CPtrVal.utf8 s) ∧
            L[i]? = some (jniStringLength s)) := by
  refine ⟨_, _, rfl, by simp, by simp, ?_⟩
  intro i hi
  constructor
  · intro hb
    constructor
    · rw [List.getElem?_map, List.getElem?_range hi, Option.map_some']
      unfold marshalValue
      rw [if_pos hb]
    · rw [List.getElem?_map, List.getElem?_range hi, Option.map_some']
      unfold marshalLength
      rw [if_pos hb]
  · intro hnb s hs
    constructor
    · rw [List.getElem?_map, List.getElem?_range hi, Option.map_some']
      unfold marshalValue
      rw [if_neg hnb, hs]
    · rw [List.getElem?_map, List.getElem?_range hi, Option.map_some']
      unfold marshalLength
      rw [if_neg hnb, hs]

/-- C6 amended witness: the marshaling evaluated at one blob parameter
and one string parameter. -/
theorem execArray_marshaling_witness :
    ∃ V L,
      (executeArrayCommand envC thiz1 (some "q")
        [JRef.directBuffer 100 16, JRef.jstr "ab"] [4, 3]).calls =
        [NCall.execArray 7 (some "q") V L [4, 3] 2] ∧
      V[0]? = some (CPtrVal.bufAddr 100) ∧ L[0]? = some 16 ∧
      V[1]? = some (CPtrVal.utf8 "ab") ∧ L[1]? = some 2 := by
  obtain ⟨V, L, hcalls, hVl, hLl, hidx⟩ := execArray_marshaling envC thiz1
    (some "q") [JRef.directBuffer 100 16, JRef.jstr "ab"] [4, 3]
  have h0 := (hidx 0 (by decide)).1 (by decide)
  have h1 := (hidx 1 (by decide)).2 (by decide) "ab" (by decide)
  exact ⟨V, L, hcalls, h0.1.trans (by decide), h0.2.trans (by decide),
    h1.1.trans (by decide), h1.2.trans (by decide)⟩
